import Mathlib

/-!
# Command replication protocol of the OSPRay MPI offload module

A shallow embedding of `modules/mpi/common/OSPWork.cpp` (the work items, their
wire codec and their worker-side / master-side behaviour) together with the
process-group declarations of `ospray/mpi/MPICommon.h`.

Layout: the data model and the operations first, then the lemmas and the
theorems about them.
-/

namespace ospray

/-! ## Wire primitives -/

/-- One byte of a buffer or of a stream (`byte_t`). -/
abbrev byte_t := Fin 256

/-- Bytes written so far; `b << x` appends the encoding of `x`. -/
abbrev WriteStream := List byte_t

/-- Bytes not read yet; `b >> x` takes the encoding of `x` off the front. -/
abbrev ReadStream := List byte_t

/-- A `std::string`: a sequence of bytes. -/
abbrev std_string := List byte_t

/-- The `w` low-order bytes of `n`, least significant byte first. -/
def leBytes : Nat → Nat → List byte_t
  | 0, _ => []
  | w + 1, n => ⟨n % 256, Nat.mod_lt n (by decide)⟩ :: leBytes w (n / 256)

/-- The number a little-endian byte sequence stands for. -/
def leValue : List byte_t → Nat
  | [] => 0
  | b :: bs => b.val + 256 * leValue bs

/-- Two's-complement bit pattern of a signed integer in `8 * w` bits. -/
def toBits (w : Nat) (v : Int) : Nat := (v % (2 : Int) ^ (8 * w)).toNat

/-- Signed reading of an `8 * w`-bit pattern. -/
def ofBits (w : Nat) (n : Nat) : Int :=
  if n < 2 ^ (8 * w - 1) then (n : Int) else (n : Int) - (2 : Int) ^ (8 * w)

/-- Modelled from the spec: the stream operator `<<` for an unsigned scalar of
`w` bytes, which is not under src/ (section 6: binary, little-endian, fixed
width for scalars, vectors and handles). -/
def putUInt (w : Nat) (b : WriteStream) (n : Nat) : WriteStream :=
  b ++ leBytes w n

/-- Modelled from the spec: the stream operator `>>` for an unsigned scalar of
`w` bytes, which is not under src/; it fails when fewer than `w` bytes are
left. -/
def getUInt (w : Nat) (b : ReadStream) : Option (Nat × ReadStream) :=
  if w ≤ b.length then some (leValue (b.take w), b.drop w) else none

/-- Modelled from the spec: `<<` for a signed scalar of `w` bytes (its
two's-complement pattern, fixed width). -/
def putInt (w : Nat) (b : WriteStream) (v : Int) : WriteStream :=
  putUInt w b (toBits w v)

/-- Modelled from the spec: `>>` for a signed scalar of `w` bytes. -/
def getInt (w : Nat) (b : ReadStream) : Option (Int × ReadStream) :=
  match getUInt w b with
  | some (n, b) => some (ofBits w n, b)
  | none => none

/-- Modelled from the spec: `<<` for a `bool`, one byte holding 0 or 1. -/
def putBool (b : WriteStream) (v : Bool) : WriteStream :=
  putUInt 1 b (if v then 1 else 0)

/-- Modelled from the spec: `>>` for a `bool`; any non-zero byte reads as
`true`. -/
def getBool (b : ReadStream) : Option (Bool × ReadStream) :=
  match getUInt 1 b with
  | some (n, b) => some (decide (n ≠ 0), b)
  | none => none

/-- Modelled from the spec: `<<` for a variable-length byte buffer or string,
which is not under src/ (section 6: length-prefixed); the prefix is the
64-bit element count. -/
def putBytes (b : WriteStream) (d : List byte_t) : WriteStream :=
  putUInt 8 b d.length ++ d

/-- Modelled from the spec: `>>` for a variable-length byte buffer or string:
reads the 64-bit count, then that many bytes; fails when the stream is too
short. -/
def getBytes (b : ReadStream) : Option (List byte_t × ReadStream) :=
  match getUInt 8 b with
  | some (n, b) => if n ≤ b.length then some (b.take n, b.drop n) else none
  | none => none

/-! ## Scalar and vector types -/

/-- Values of the C++ type `int64`. -/
def isInt64 (v : Int) : Prop := -(2 : Int) ^ 63 ≤ v ∧ v < (2 : Int) ^ 63

/-- Values of the C++ types `int` and `int32`. -/
def isInt32 (v : Int) : Prop := -(2 : Int) ^ 31 ≤ v ∧ v < (2 : Int) ^ 31

/-- Values of the C++ type `uint32`, and raw bit patterns of a `float`. -/
def isUInt32 (n : Nat) : Prop := n < 2 ^ 32

/-- Values of the C++ type `size_t`. -/
def isSizeT (n : Nat) : Prop := n < 2 ^ 64

instance (v : Int) : Decidable (isInt64 v) := by unfold isInt64; infer_instance
instance (v : Int) : Decidable (isInt32 v) := by unfold isInt32; infer_instance
instance (n : Nat) : Decidable (isUInt32 n) := by unfold isUInt32; infer_instance
instance (n : Nat) : Decidable (isSizeT n) := by unfold isSizeT; infer_instance

/-- The handle type `ObjectHandle`: a 64-bit integer `i64`. -/
structure ObjectHandle where
  i64 : Int
  deriving DecidableEq, Repr

/-- The vector type `vec2i`. -/
structure vec2i where
  x : Int
  y : Int
  deriving DecidableEq, Repr

/-- The vector type `vec3i`. -/
structure vec3i where
  x : Int
  y : Int
  z : Int
  deriving DecidableEq, Repr

/-- The vector type `vec2f`; each component is the 32-bit pattern of the
float, which is what travels on the wire. -/
structure vec2f where
  x : Nat
  y : Nat
  deriving DecidableEq, Repr

/-- The enum `OSPDataType`, as the 32-bit integer it is cast to on the wire. -/
abbrev OSPDataType := Int

/-- The enum `OSPFrameBufferFormat`, as the 32-bit integer it is cast to. -/
abbrev OSPFrameBufferFormat := Int

def vec2i.wf (v : vec2i) : Prop := isInt32 v.x ∧ isInt32 v.y
def vec3i.wf (v : vec3i) : Prop := isInt32 v.x ∧ isInt32 v.y ∧ isInt32 v.z
def vec2f.wf (v : vec2f) : Prop := isUInt32 v.x ∧ isUInt32 v.y
def ObjectHandle.wf (h : ObjectHandle) : Prop := isInt64 h.i64

instance (v : vec2i) : Decidable v.wf := by unfold vec2i.wf; infer_instance
instance (v : vec3i) : Decidable v.wf := by unfold vec3i.wf; infer_instance
instance (v : vec2f) : Decidable v.wf := by unfold vec2f.wf; infer_instance
instance (h : ObjectHandle) : Decidable h.wf := by unfold ObjectHandle.wf; infer_instance

def putVec2i (b : WriteStream) (v : vec2i) : WriteStream :=
  putInt 4 (putInt 4 b v.x) v.y

def getVec2i (b : ReadStream) : Option (vec2i × ReadStream) :=
  match getInt 4 b with
  | some (x, b) =>
    match getInt 4 b with
    | some (y, b) => some (⟨x, y⟩, b)
    | none => none
  | none => none

def putVec3i (b : WriteStream) (v : vec3i) : WriteStream :=
  putInt 4 (putInt 4 (putInt 4 b v.x) v.y) v.z

def getVec3i (b : ReadStream) : Option (vec3i × ReadStream) :=
  match getInt 4 b with
  | some (x, b) =>
    match getInt 4 b with
    | some (y, b) =>
      match getInt 4 b with
      | some (z, b) => some (⟨x, y, z⟩, b)
      | none => none
    | none => none
  | none => none

def putVec2f (b : WriteStream) (v : vec2f) : WriteStream :=
  putUInt 4 (putUInt 4 b v.x) v.y

def getVec2f (b : ReadStream) : Option (vec2f × ReadStream) :=
  match getUInt 4 b with
  | some (x, b) =>
    match getUInt 4 b with
    | some (y, b) => some (⟨x, y⟩, b)
    | none => none
  | none => none

/-! ## Work items and their codec -/

/-- What a failing operation throws. -/
inductive Error
  /-- A `std::runtime_error` with its message. -/
  | runtime_error (what : String)
  /-- The dangling-handle condition of a handle lookup or release. -/
  | dangling_handle
  /-- A member call through a null pointer or through a pointer to a freed
  object, or a memory access outside a buffer. -/
  | invalid_pointer
  /-- A failed `assert(...)` in a build with assertions. -/
  | assertion_failed
  deriving DecidableEq, Repr

/-- The result of a pick, as the raw bytes of `OSPPickResult`. -/
abbrev OSPPickResult := List byte_t

namespace work

/-- Work item `SetLoadBalancer`. -/
structure SetLoadBalancer where
  useDynamicLoadBalancer : Bool
  numTilesPreAllocated : Int
  handleID : Int
  deriving DecidableEq, Repr

/-- Work item `CommitObject` (ospCommit). -/
structure CommitObject where
  handle : ObjectHandle
  deriving DecidableEq, Repr

/-- Work item `CreateFrameBuffer` (ospNewFrameBuffer). -/
structure CreateFrameBuffer where
  handle : ObjectHandle
  dimensions : vec2i
  format : OSPFrameBufferFormat
  channels : Nat
  deriving DecidableEq, Repr

/-- Work item `LoadModule`; `errorCode` is the result of `run`, not payload. -/
structure LoadModule where
  name : std_string
  errorCode : Int
  deriving DecidableEq, Repr

/-- Work item `SetParam<std::string>`. -/
structure SetParam where
  handle : ObjectHandle
  name : std_string
  val : std_string
  deriving DecidableEq, Repr

/-- Work item `NewData`; `dataView` is the viewed byte range, `copiedData` the
buffer the item owns. -/
structure NewData where
  handle : ObjectHandle
  nItems : Nat
  format : OSPDataType
  flags : Int
  copiedData : List byte_t
  dataView : List byte_t
  deriving DecidableEq, Repr

/-- Work item `SetRegion`. -/
structure SetRegion where
  handle : ObjectHandle
  regionStart : vec3i
  regionSize : vec3i
  type : OSPDataType
  data : List byte_t
  deriving DecidableEq, Repr

/-- Work item `ResetAccumulation`. -/
structure ResetAccumulation where
  handle : ObjectHandle
  deriving DecidableEq, Repr

/-- Work item `RenderFrameAsync`. -/
structure RenderFrameAsync where
  fbHandle : ObjectHandle
  rendererHandle : ObjectHandle
  cameraHandle : ObjectHandle
  worldHandle : ObjectHandle
  futureHandle : ObjectHandle
  deriving DecidableEq, Repr

/-- Work item `RemoveParam`. -/
structure RemoveParam where
  handle : ObjectHandle
  name : std_string
  deriving DecidableEq, Repr

/-- Work item `CommandRelease` (ospRelease). -/
structure CommandRelease where
  handle : ObjectHandle
  deriving DecidableEq, Repr

/-- Work item `Pick`; `pickResult` is the result of running it, not payload. -/
structure Pick where
  fbHandle : ObjectHandle
  rendererHandle : ObjectHandle
  cameraHandle : ObjectHandle
  worldHandle : ObjectHandle
  screenPos : vec2f
  pickResult : OSPPickResult
  deriving DecidableEq, Repr

/-! ### SetLoadBalancer -/

/-- Constructor `SetLoadBalancer::SetLoadBalancer`. -/
def SetLoadBalancer.new (_handle : ObjectHandle) (_useDynamicLoadBalancer : Bool)
    (_numTilesPreAllocated : Int) : SetLoadBalancer :=
  { useDynamicLoadBalancer := _useDynamicLoadBalancer
    numTilesPreAllocated := _numTilesPreAllocated
    handleID := _handle.i64 }

/-- Writes `b << handleID << useDynamicLoadBalancer`. -/
def SetLoadBalancer.serialize (self : SetLoadBalancer) (b : WriteStream) : WriteStream :=
  putBool (putInt 8 b self.handleID) self.useDynamicLoadBalancer

/-- Reads `b >> handleID >> useDynamicLoadBalancer`; every other member of `self`
keeps the value it had. -/
def SetLoadBalancer.deserialize (self : SetLoadBalancer) (b : ReadStream) :
    Option (SetLoadBalancer × ReadStream) :=
  match getInt 8 b with
  | some (handleID, b) =>
    match getBool b with
    | some (useDynamicLoadBalancer, b) =>
      some ({ self with handleID := handleID
                        useDynamicLoadBalancer := useDynamicLoadBalancer }, b)
    | none => none
  | none => none

def SetLoadBalancer.wf (x : SetLoadBalancer) : Prop :=
  isInt64 x.handleID ∧ isInt32 x.numTilesPreAllocated

/-! ### CommitObject -/

/-- Writes `b << (int64)handle`. -/
def CommitObject.serialize (self : CommitObject) (b : WriteStream) : WriteStream :=
  putInt 8 b self.handle.i64

/-- Reads `b >> handle.i64`. -/
def CommitObject.deserialize (self : CommitObject) (b : ReadStream) :
    Option (CommitObject × ReadStream) :=
  match getInt 8 b with
  | some (i64, b) => some ({ self with handle := ⟨i64⟩ }, b)
  | none => none

/-! ### CreateFrameBuffer -/

/-- Writes `b << (int64)handle << dimensions << (int32)format << channels`. -/
def CreateFrameBuffer.serialize (self : CreateFrameBuffer) (b : WriteStream) : WriteStream :=
  putUInt 4 (putInt 4 (putVec2i (putInt 8 b self.handle.i64) self.dimensions) self.format)
    self.channels

/-- Reads `b >> handle.i64 >> dimensions >> fmt >> channels`, then
`format = (OSPFrameBufferFormat)fmt`. -/
def CreateFrameBuffer.deserialize (self : CreateFrameBuffer) (b : ReadStream) :
    Option (CreateFrameBuffer × ReadStream) :=
  match getInt 8 b with
  | some (i64, b) =>
    match getVec2i b with
    | some (dimensions, b) =>
      match getInt 4 b with
      | some (fmt, b) =>
        match getUInt 4 b with
        | some (channels, b) =>
          some ({ self with handle := ⟨i64⟩, dimensions := dimensions
                            format := fmt, channels := channels }, b)
        | none => none
      | none => none
    | none => none
  | none => none

def CreateFrameBuffer.wf (x : CreateFrameBuffer) : Prop :=
  x.handle.wf ∧ x.dimensions.wf ∧ isInt32 x.format ∧ isUInt32 x.channels

/-! ### LoadModule -/

/-- Writes `b << name`. -/
def LoadModule.serialize (self : LoadModule) (b : WriteStream) : WriteStream :=
  putBytes b self.name

/-- Reads `b >> name`. -/
def LoadModule.deserialize (self : LoadModule) (b : ReadStream) :
    Option (LoadModule × ReadStream) :=
  match getBytes b with
  | some (name, b) => some ({ self with name := name }, b)
  | none => none

def LoadModule.wf (x : LoadModule) : Prop := isSizeT x.name.length

/-! ### NewData -/

/-- Writes `b << (int64)handle << nItems << (int32)format << flags << dataView`. -/
def NewData.serialize (self : NewData) (b : WriteStream) : WriteStream :=
  putBytes (putInt 4 (putInt 4 (putUInt 8 (putInt 8 b self.handle.i64) self.nItems)
    self.format) self.flags) self.dataView

/-- Reads `b >> handle.i64 >> nItems >> fmt >> flags >> copiedData`, then
`dataView = copiedData` and `format = (OSPDataType)fmt`. -/
def NewData.deserialize (self : NewData) (b : ReadStream) : Option (NewData × ReadStream) :=
  match getInt 8 b with
  | some (i64, b) =>
    match getUInt 8 b with
    | some (nItems, b) =>
      match getInt 4 b with
      | some (fmt, b) =>
        match getInt 4 b with
        | some (flags, b) =>
          match getBytes b with
          | some (copiedData, b) =>
            some ({ self with handle := ⟨i64⟩, nItems := nItems, flags := flags
                              copiedData := copiedData, dataView := copiedData
                              format := fmt }, b)
          | none => none
        | none => none
      | none => none
    | none => none
  | none => none

def NewData.wf (x : NewData) : Prop :=
  x.handle.wf ∧ isSizeT x.nItems ∧ isInt32 x.format ∧ isInt32 x.flags ∧
    isSizeT x.dataView.length

/-! ### SetRegion -/

/-- Writes `b << (int64)handle << regionStart << regionSize << (int32)type << data`. -/
def SetRegion.serialize (self : SetRegion) (b : WriteStream) : WriteStream :=
  putBytes (putInt 4 (putVec3i (putVec3i (putInt 8 b self.handle.i64) self.regionStart)
    self.regionSize) self.type) self.data

/-- Reads `b >> handle.i64 >> regionStart >> regionSize >> ty >> data`, then
`type = (OSPDataType)ty`. -/
def SetRegion.deserialize (self : SetRegion) (b : ReadStream) :
    Option (SetRegion × ReadStream) :=
  match getInt 8 b with
  | some (i64, b) =>
    match getVec3i b with
    | some (regionStart, b) =>
      match getVec3i b with
      | some (regionSize, b) =>
        match getInt 4 b with
        | some (ty, b) =>
          match getBytes b with
          | some (data, b) =>
            some ({ self with handle := ⟨i64⟩, regionStart := regionStart
                              regionSize := regionSize, data := data, type := ty }, b)
          | none => none
        | none => none
      | none => none
    | none => none
  | none => none

def SetRegion.wf (x : SetRegion) : Prop :=
  x.handle.wf ∧ x.regionStart.wf ∧ x.regionSize.wf ∧ isInt32 x.type ∧
    isSizeT x.data.length

/-! ### ResetAccumulation -/

/-- Writes `b << (int64)handle`. -/
def ResetAccumulation.serialize (self : ResetAccumulation) (b : WriteStream) : WriteStream :=
  putInt 8 b self.handle.i64

/-- Reads `b >> handle.i64`. -/
def ResetAccumulation.deserialize (self : ResetAccumulation) (b : ReadStream) :
    Option (ResetAccumulation × ReadStream) :=
  match getInt 8 b with
  | some (i64, b) => some ({ self with handle := ⟨i64⟩ }, b)
  | none => none

/-! ### RenderFrameAsync -/

/-- Writes `b << (int64)fbHandle << (int64)rendererHandle << (int64)cameraHandle
<< (int64)worldHandle << (int64)futureHandle`. -/
def RenderFrameAsync.serialize (self : RenderFrameAsync) (b : WriteStream) : WriteStream :=
  putInt 8 (putInt 8 (putInt 8 (putInt 8 (putInt 8 b self.fbHandle.i64)
    self.rendererHandle.i64) self.cameraHandle.i64) self.worldHandle.i64)
    self.futureHandle.i64

/-- Reads `b >> fbHandle.i64 >> rendererHandle.i64 >> cameraHandle.i64 >>
worldHandle.i64 >> futureHandle.i64`. -/
def RenderFrameAsync.deserialize (self : RenderFrameAsync) (b : ReadStream) :
    Option (RenderFrameAsync × ReadStream) :=
  match getInt 8 b with
  | some (fb, b) =>
    match getInt 8 b with
    | some (renderer, b) =>
      match getInt 8 b with
      | some (camera, b) =>
        match getInt 8 b with
        | some (world, b) =>
          match getInt 8 b with
          | some (future, b) =>
            some ({ self with fbHandle := ⟨fb⟩, rendererHandle := ⟨renderer⟩
                              cameraHandle := ⟨camera⟩, worldHandle := ⟨world⟩
                              futureHandle := ⟨future⟩ }, b)
          | none => none
        | none => none
      | none => none
    | none => none
  | none => none

def RenderFrameAsync.wf (x : RenderFrameAsync) : Prop :=
  x.fbHandle.wf ∧ x.rendererHandle.wf ∧ x.cameraHandle.wf ∧ x.worldHandle.wf ∧
    x.futureHandle.wf

/-! ### RemoveParam -/

/-- Writes `b << (int64)handle << name`. -/
def RemoveParam.serialize (self : RemoveParam) (b : WriteStream) : WriteStream :=
  putBytes (putInt 8 b self.handle.i64) self.name

/-- Reads `b >> handle.i64 >> name`. -/
def RemoveParam.deserialize (self : RemoveParam) (b : ReadStream) :
    Option (RemoveParam × ReadStream) :=
  match getInt 8 b with
  | some (i64, b) =>
    match getBytes b with
    | some (name, b) => some ({ self with handle := ⟨i64⟩, name := name }, b)
    | none => none
  | none => none

def RemoveParam.wf (x : RemoveParam) : Prop := x.handle.wf ∧ isSizeT x.name.length

/-! ### CommandRelease -/

/-- Writes `b << (int64)handle`. -/
def CommandRelease.serialize (self : CommandRelease) (b : WriteStream) : WriteStream :=
  putInt 8 b self.handle.i64

/-- Reads `b >> handle.i64`. -/
def CommandRelease.deserialize (self : CommandRelease) (b : ReadStream) :
    Option (CommandRelease × ReadStream) :=
  match getInt 8 b with
  | some (i64, b) => some ({ self with handle := ⟨i64⟩ }, b)
  | none => none

/-! ### Pick -/

/-- Writes `b << (int64)fbHandle << (int64)rendererHandle << (int64)cameraHandle
<< (int64)worldHandle << screenPos`. -/
def Pick.serialize (self : Pick) (b : WriteStream) : WriteStream :=
  putVec2f (putInt 8 (putInt 8 (putInt 8 (putInt 8 b self.fbHandle.i64)
    self.rendererHandle.i64) self.cameraHandle.i64) self.worldHandle.i64) self.screenPos

/-- Reads `b >> fbHandle.i64 >> rendererHandle.i64 >> cameraHandle.i64 >>
worldHandle.i64 >> screenPos`. -/
def Pick.deserialize (self : Pick) (b : ReadStream) : Option (Pick × ReadStream) :=
  match getInt 8 b with
  | some (fb, b) =>
    match getInt 8 b with
    | some (renderer, b) =>
      match getInt 8 b with
      | some (camera, b) =>
        match getInt 8 b with
        | some (world, b) =>
          match getVec2f b with
          | some (screenPos, b) =>
            some ({ self with fbHandle := ⟨fb⟩, rendererHandle := ⟨renderer⟩
                              cameraHandle := ⟨camera⟩, worldHandle := ⟨world⟩
                              screenPos := screenPos }, b)
          | none => none
        | none => none
      | none => none
    | none => none
  | none => none

def Pick.wf (x : Pick) : Prop :=
  x.fbHandle.wf ∧ x.rendererHandle.wf ∧ x.cameraHandle.wf ∧ x.worldHandle.wf ∧
    x.screenPos.wf

instance (x : SetLoadBalancer) : Decidable x.wf := by unfold SetLoadBalancer.wf; infer_instance
instance (x : CreateFrameBuffer) : Decidable x.wf := by
  unfold CreateFrameBuffer.wf; infer_instance
instance (x : LoadModule) : Decidable x.wf := by unfold LoadModule.wf; infer_instance
instance (x : NewData) : Decidable x.wf := by unfold NewData.wf; infer_instance
instance (x : SetRegion) : Decidable x.wf := by unfold SetRegion.wf; infer_instance
instance (x : RenderFrameAsync) : Decidable x.wf := by
  unfold RenderFrameAsync.wf; infer_instance
instance (x : RemoveParam) : Decidable x.wf := by unfold RemoveParam.wf; infer_instance
instance (x : Pick) : Decidable x.wf := by unfold Pick.wf; infer_instance

end work

/-! ## Process groups (`MPICommon.h`) -/

/-- An MPI communicator, by its identity. -/
abbrev MPI_Comm := Nat

/-- The null communicator `MPI_COMM_NULL`. -/
def MPI_COMM_NULL : MPI_Comm := 0

/-- The struct `Group`: an MPI group as seen from this process. -/
structure Group where
  /-- whether the current process is a member of this group -/
  containsMe : Bool := false
  /-- communicator for this group -/
  comm : MPI_Comm := MPI_COMM_NULL
  /-- my rank in this group if i am a member -/
  rank : Int := -1
  /-- size of this group -/
  size : Int := -1
  deriving DecidableEq, Repr

/-- An MPI element type. -/
inductive MPI_Datatype
  | MPI_BYTE | MPI_INT | MPI_FLOAT
  deriving DecidableEq, Repr

/-- A point-to-point message in flight: the communicator, the rank of the
sender and of the addressee in it, the tag, the element type and count, and
the bytes. -/
structure Message where
  comm : MPI_Comm
  source : Int
  dest : Int
  tag : Int
  datatype : MPI_Datatype
  count : Nat
  payload : List byte_t
  deriving DecidableEq, Repr

/-- An operation handed to the messaging layer, which returns a future. -/
inductive Request
  /-- A send of the message. -/
  | send (m : Message)
  /-- A receive of `count` elements of `datatype` from rank `source` with
  `tag` on `comm`. -/
  | recv (count : Nat) (datatype : MPI_Datatype) (source : Int) (tag : Int) (comm : MPI_Comm)
  /-- A barrier on `comm`. -/
  | barrier (comm : MPI_Comm)
  deriving DecidableEq, Repr

/-- What this process did on the communication substrate. -/
inductive Event
  /-- A call of `MPI_Barrier(comm)`, entered and passed. -/
  | barrier (comm : MPI_Comm)
  /-- The request was handed to the messaging layer. -/
  | post (r : Request)
  /-- The call of `wait()` on the future of the request returned: the request
  is complete. -/
  | wait (r : Request)
  deriving DecidableEq, Repr

/-! ## Objects, the heap and the handle table -/

/-- Address of an object on the heap of this process. -/
abbrev Ptr := Nat

/-- Dynamic type of a managed object, as far as `dynamic_cast` tells. -/
inductive ObjectKind
  | renderer | volume | frameBuffer | camera | world | geometry
  | geometryInstance | volumeInstance | transferFunction | pixelOp
  | material | light | data | texture | renderTask
  deriving DecidableEq, Repr

/-- The enum `OSPSyncEvent`. -/
inductive OSPSyncEvent
  | OSP_NONE_FINISHED | OSP_WORLD_RENDERED | OSP_WORLD_COMMITTED
  | OSP_FRAME_FINISHED | OSP_TASK_FINISHED
  deriving DecidableEq, Repr

/-- A call of a collaborator operation, as received by the object it is made
on. The core makes these calls and does not define what they do, so an object
records them. -/
inductive Call
  | commit
  | setParam (name val : std_string)
  | removeParam (name : std_string)
  | setCompletedEvent (event : OSPSyncEvent)
  | renderFrame (fb camera world : Option Ptr)
  | pick (fb camera world : Option Ptr) (screenPos : vec2f)
  /-- The constructor call `GeometryInstance(geom)`, recorded by the new
  object. -/
  | GeometryInstance (geom : Option Ptr)
  /-- The constructor call `VolumeInstance(volume)`, recorded by the new
  object. -/
  | VolumeInstance (volume : Option Ptr)
  /-- The constructor call `Data(nItems, format, init)`, recorded by the new
  object with the bytes at `init`. -/
  | Data (nItems : Nat) (format : OSPDataType) (init : List byte_t)
  deriving DecidableEq, Repr

/-- The lambda handed to a `RenderTask`, with the pointers it captured by
value: the one of `RenderFrameAsync::run` and the one of
`RenderFrameAsync::runOnMaster`. -/
inductive RenderClosure
  | worker (renderer fb camera world : Option Ptr)
  | master (renderer fb : Option Ptr)
  deriving DecidableEq, Repr

/-- Modelled from the spec: the members of `RenderTask` (section 3,
RenderFuture: target framebuffer, closure producing the result, completion
flag); `render/RenderTask.h` is not under src/. -/
structure RenderTask where
  fb : Option Ptr
  fcn : RenderClosure
  finished : Bool
  deriving DecidableEq, Repr

/-- A heap object derived from `ManagedObject`: its dynamic type, its
reference count, the collaborator calls it received (oldest first), and the
task members when it is a `RenderTask`. -/
structure ManagedObject where
  kind : ObjectKind
  refCount : Int
  calls : List Call
  task : Option RenderTask
  deriving DecidableEq, Repr

/-- State of one process: the heap (index = address, `none` = freed), the
handle table `objectByHandle`, the groups `world`, `app` and `worker`, the
communication events so far (oldest first), and the messages waiting to be
received. -/
structure State where
  heap : List (Option ManagedObject)
  objectByHandle : Int → Option Ptr
  world : Group
  app : Group
  worker : Group
  events : List Event
  /-- messages that have arrived for this process and are not received yet,
  oldest first -/
  inbox : List Message := []
  /-- whether a full mirror of the cluster objects is expected on this process
  (a worker); the master holds a partial mirror -/
  fullMirror : Bool := true
  /-- whether a lookup counts the null handle as dangling where a full mirror
  is expected; neither the spec nor the code under src/ settles it -/
  danglingNull : Bool := false

/-- How a member function ends: the exception it threw, if any, and the state
it leaves behind. -/
structure Outcome where
  thrown : Option Error
  state : State

/-- Normal return. -/
def Outcome.ok (s : State) : Outcome := ⟨none, s⟩

/-- Leave by exception `e`. -/
def Outcome.throw (e : Error) (s : State) : Outcome := ⟨some e, s⟩

/-- Sequencing: the next statement runs only if nothing was thrown. -/
def Outcome.andThen (r : Outcome) (f : State → Outcome) : Outcome :=
  match r.thrown with
  | none => f r.state
  | some _ => r

/-- The live object at address `p`, if any. -/
def State.object (s : State) (p : Ptr) : Option ManagedObject :=
  match s.heap.get? p with
  | some (some o) => some o
  | _ => none

/-- Overwrite the object at address `p`. -/
def State.setObject (s : State) (p : Ptr) (o : ManagedObject) : State :=
  { s with heap := s.heap.set p (some o) }

/-- A member call `obj->f()` that changes the object by `f`; a null pointer
or a pointer to a freed object is an invalid access. -/
def State.modify (s : State) (obj : Option Ptr) (f : ManagedObject → ManagedObject) :
    Outcome :=
  match obj with
  | none => .throw .invalid_pointer s
  | some p =>
    match s.object p with
    | some o => .ok (s.setObject p (f o))
    | none => .throw .invalid_pointer s

/-- A collaborator call `obj->c(...)`: the object records it. -/
def State.call (s : State) (obj : Option Ptr) (c : Call) : Outcome :=
  s.modify obj fun o => { o with calls := o.calls ++ [c] }

/-- Modelled from the spec: `refInc()` raises the reference count by one
(section 3, reference counting `refInc/refDec`); the class is not under src/. -/
def State.refInc (s : State) (obj : Option Ptr) : Outcome :=
  s.modify obj fun o => { o with refCount := o.refCount + 1 }

/-- Modelled from the spec: `refDec()` lowers the reference count by one
(section 4.4: completion decrements every reference it incremented, restoring
balance); the class is not under src/. -/
def State.refDec (s : State) (obj : Option Ptr) : Outcome :=
  s.modify obj fun o => { o with refCount := o.refCount - 1 }

/-- The operator `new`: a fresh address holding `o`. -/
def State.new (s : State) (o : ManagedObject) : Ptr × State :=
  (s.heap.length, { s with heap := s.heap ++ [some o] })

/-- The cast `dynamic_cast<K *>(obj)`: `obj` itself when it points to a live
object of kind `k`, null otherwise. -/
def dynamic_cast (k : ObjectKind) (s : State) (obj : Option Ptr) : Option Ptr :=
  match obj with
  | none => none
  | some p =>
    match s.object p with
    | some o => if o.kind = k then some p else none
    | none => none

/-- The method `Group::barrier`: `MPI_CALL(Barrier(comm))`. -/
def Group.barrier (g : Group) (s : State) : State :=
  { s with events := s.events ++ [.barrier g.comm] }

/-- Modelled from the spec: the distinguished null handle, meaning no object
(section 3); `ObjectHandle.h` is not under src/. -/
def nullHandle : ObjectHandle := ⟨0⟩

/-- Modelled from the spec: `ObjectHandle::defined`, whether the handle was
assigned on this process and not released since (section 4.3); the class
`ObjectHandle` is not under src/. -/
def ObjectHandle.defined (h : ObjectHandle) (s : State) : Bool :=
  (s.objectByHandle h.i64).isSome

/-- Modelled from the spec: whether a lookup of the handle `h`, which has no
entry in the table of this process, fails. Where a full mirror is expected a
handle that was never assigned or was released is dangling and the lookup
fails (sections 4.2, 4.3 and 7); on the partial mirror of the master a handle
that resolves to nothing is not an error (sections 4.3 and 7). For the null
handle the spec says only that it names no object (section 3), so the state
carries the answer in `danglingNull`. The class `ObjectHandle` is not under
src/. -/
def State.signalsDangling (s : State) (h : ObjectHandle) : Bool :=
  s.fullMirror && (decide (h ≠ nullHandle) || s.danglingNull)

/-- Modelled from the spec: `ObjectHandle::lookup`. A handle with an entry in
the table gives the pointer assigned to it (section 4.2), the null handle
gives no object (section 3), which is the null pointer. A handle without
entry either fails with the dangling-handle condition or gives the null
pointer, as `State.signalsDangling` tells. The class `ObjectHandle` is not
under src/. -/
def ObjectHandle.lookup (h : ObjectHandle) (s : State) : Except Error (Option Ptr) :=
  match s.objectByHandle h.i64 with
  | some p => if h = nullHandle then .ok none else .ok (some p)
  | none => if s.signalsDangling h then .error .dangling_handle else .ok none

/-- Modelled from the spec: `ObjectHandle::assign` (section 4.2: establishes
the pointer for all later lookups); the class `ObjectHandle` is not under
src/. -/
def ObjectHandle.assign (h : ObjectHandle) (p : Ptr) (s : State) : State :=
  { s with objectByHandle := fun k => if k = h.i64 then some p else s.objectByHandle k }

/-- Modelled from the spec: `ObjectHandle::freeObject` (section 3: release
deallocates the local object and removes the mapping; a handle that is not
assigned is dangling); the class `ObjectHandle` is not under src/. -/
def ObjectHandle.freeObject (h : ObjectHandle) (s : State) : Outcome :=
  match s.objectByHandle h.i64 with
  | some p =>
    .ok { s with heap := s.heap.set p none
                 objectByHandle := fun k => if k = h.i64 then none else s.objectByHandle k }
  | none => .throw .dangling_handle s

/-- The handle resolves on this process: it is not null, it is assigned, and
the object it names is live. -/
def State.resolve (s : State) (h : ObjectHandle) : Option (Ptr × ManagedObject) :=
  if h = nullHandle then none
  else
    match s.objectByHandle h.i64 with
    | some p =>
      match s.object p with
      | some o => some (p, o)
      | none => none
    | none => none

/-- The member function `c_str()`: the bytes up to the first NUL. -/
def c_str (str : std_string) : std_string := str.takeWhile fun c => c ≠ 0

/-- Conversion of an `int` operand to `size_t` (modulo 2^64). -/
def toSizeT (v : Int) : Nat := (v % (2 : Int) ^ 64).toNat

/-- Product of a `size_t` and an `int`, computed in `size_t`. -/
def mulSizeT (a : Nat) (v : Int) : Nat := (a * toSizeT v) % 2 ^ 64

/-- Reference count of the live object at address `p`, if any. -/
def State.refCountAt (s : State) (p : Ptr) : Option Int :=
  match s.object p with
  | some o => some o.refCount
  | none => none

/-- A process on which no object exists and no handle is assigned. -/
def State.init : State :=
  { heap := [], objectByHandle := fun _ => none, world := {}, app := {}, worker := {}
    events := [] }

/-- A process for the examples: a renderer at address 0 under handle 5, a
volume at address 1 under handle 6, a camera at address 2 under handle 7, a
framebuffer at address 3 under handle 8 and a world at address 4 under handle
9; no other handle is assigned. The process has rank 1 of 3. -/
def State.sample : State :=
  { heap := [some ⟨.renderer, 1, [], none⟩, some ⟨.volume, 1, [], none⟩,
             some ⟨.camera, 1, [], none⟩, some ⟨.frameBuffer, 1, [], none⟩,
             some ⟨.world, 1, [], none⟩]
    objectByHandle := fun k =>
      if k = 5 then some 0 else if k = 6 then some 1 else if k = 7 then some 2
      else if k = 8 then some 3 else if k = 9 then some 4 else none
    world := { containsMe := true, comm := 1, rank := 1, size := 3 }
    app := { containsMe := false, comm := 2, rank := -1, size := 1 }
    worker := { containsMe := true, comm := 3, rank := 0, size := 2 }
    events := [] }

/-! ## Messaging layer -/

/-- Rank of this process in the communicator `comm`, for the communicators of
the groups `world`, `worker` and `app`. -/
def State.rankIn (s : State) (comm : MPI_Comm) : Int :=
  if comm = s.world.comm then s.world.rank
  else if comm = s.worker.comm then s.worker.rank
  else if comm = s.app.comm then s.app.rank
  else -1

/-- The request is handed to the messaging layer. -/
def mpicommon.post (r : Request) (s : State) : State :=
  { s with events := s.events ++ [.post r] }

/-- Modelled from the spec: `mpicommon::send(buf, count, datatype, dest, tag,
comm)` (section 6, `send(group, rank, bytes, tag)`), which is not under src/:
the message carries the bytes of the buffer and the rank of this process in
`comm` as its source. It returns the future of the request. -/
def mpicommon.send (buf : List byte_t) (count : Nat) (datatype : MPI_Datatype) (dest : Int)
    (tag : Int) (comm : MPI_Comm) (s : State) : Request × State :=
  let r := Request.send
    { comm := comm, source := s.rankIn comm, dest := dest, tag := tag
      datatype := datatype, count := count, payload := buf }
  (r, mpicommon.post r s)

/-- Modelled from the spec: `mpicommon::recv(buf, count, datatype, source, tag,
comm)` (section 6, `recv(group, rank, bytes, tag)`), which is not under src/.
It returns the future of the request. -/
def mpicommon.recv (count : Nat) (datatype : MPI_Datatype) (source : Int) (tag : Int)
    (comm : MPI_Comm) (s : State) : Request × State :=
  let r := Request.recv count datatype source tag comm
  (r, mpicommon.post r s)

/-- Modelled from the spec: `mpicommon::barrier(comm)` (section 6,
`barrier(group)`), which is not under src/. It returns the future of the
request. -/
def mpicommon.barrier (comm : MPI_Comm) (s : State) : Request × State :=
  let r := Request.barrier comm
  (r, mpicommon.post r s)

/-- Modelled from the spec: `wait()` on the future of a send or of a barrier
(section 6: blocking calls with an explicit wait); it returns once the request
is complete. -/
def mpicommon.wait (r : Request) (s : State) : State :=
  { s with events := s.events ++ [.wait r] }

/-- The message is what a receive from `source` with `tag` on `comm` takes,
on a process of rank `me` in `comm`. -/
def Message.matchesRecv (m : Message) (source : Int) (tag : Int) (comm : MPI_Comm)
    (me : Int) : Bool :=
  decide (m.comm = comm) && decide (m.source = source) && decide (m.tag = tag) &&
    decide (m.dest = me)

/-- Modelled from the spec: `wait()` on the future of a receive (section 6:
`recv` is a blocking wait), which is not under src/. It takes the oldest
message that has arrived from `source` with `tag` on `comm` for this process;
`none` stands for a wait that does not return because no such message has
arrived. A message of another element type or of more elements than the
buffer holds is a failure of the substrate. -/
def mpicommon.waitRecv (count : Nat) (datatype : MPI_Datatype) (source : Int) (tag : Int)
    (comm : MPI_Comm) (s : State) : Option (Except Error (List byte_t) × State) :=
  match s.inbox.find? fun m => m.matchesRecv source tag comm (s.rankIn comm) with
  | none => none
  | some m =>
    let s2 := { s with inbox := s.inbox.erase m
                       events := s.events ++ [.wait (.recv count datatype source tag comm)] }
    if m.datatype = datatype ∧ m.count ≤ count then
      some (.ok m.payload, s2)
    else
      some (.error (.runtime_error "MPI call returned error"), s2)

/-- The message arrives at this process. -/
def State.deliver (s : State) (m : Message) : State :=
  { s with inbox := s.inbox ++ [m] }

/-- What `Pick` uses and src/ does not define: the type tag `typeIdOf<Pick>()`,
the size `sizeof(pickResult)`, and the result of the collaborator call
`renderer->pick(fb, camera, world, screenPos)` on a process state. -/
structure PickEnv where
  typeIdOf_Pick : Int
  sizeof_pickResult : Nat
  pick : State → Option Ptr → Option Ptr → Option Ptr → Option Ptr → vec2f → OSPPickResult

/-- The names of the enum `OSPDataType` that `NewData` uses and the flag
`OSP_DATA_SHARED_BUFFER`; their values are not under src/. -/
structure DataEnv where
  OSP_OBJECT : OSPDataType
  OSP_CAMERA : OSPDataType
  OSP_DATA : OSPDataType
  OSP_FRAMEBUFFER : OSPDataType
  OSP_GEOMETRY : OSPDataType
  OSP_LIGHT : OSPDataType
  OSP_MATERIAL : OSPDataType
  OSP_WORLD : OSPDataType
  OSP_RENDERER : OSPDataType
  OSP_TEXTURE : OSPDataType
  OSP_TRANSFER_FUNCTION : OSPDataType
  OSP_VOLUME : OSPDataType
  OSP_PIXEL_OP : OSPDataType
  OSP_STRING : OSPDataType
  OSP_DATA_SHARED_BUFFER : Int

/-- The test of `NewData::run` on the format: one of the thirteen formats whose
items are handles. -/
def DataEnv.isObjectFormat (E : DataEnv) (format : OSPDataType) : Bool :=
  decide (format = E.OSP_OBJECT) || decide (format = E.OSP_CAMERA) ||
  decide (format = E.OSP_DATA) || decide (format = E.OSP_FRAMEBUFFER) ||
  decide (format = E.OSP_GEOMETRY) || decide (format = E.OSP_LIGHT) ||
  decide (format = E.OSP_MATERIAL) || decide (format = E.OSP_WORLD) ||
  decide (format = E.OSP_RENDERER) || decide (format = E.OSP_TEXTURE) ||
  decide (format = E.OSP_TRANSFER_FUNCTION) || decide (format = E.OSP_VOLUME) ||
  decide (format = E.OSP_PIXEL_OP)

/-- The constructors `GeometryInstance(geom)` and `VolumeInstance(volume)` of
the scene objects, which src/ does not define and the spec leaves outside the
core (section 1): given the pointer it is built from, a constructor throws or
yields the new object. -/
structure InstanceEnv where
  GeometryInstance : Option Ptr → Except Error ManagedObject
  VolumeInstance : Option Ptr → Except Error ManagedObject

/-- The machine word of a pointer: 0 for the null pointer; the object at heap
index `p` has the address `p + 1`, so that no object has the address 0. -/
def ptrBits (obj : Option Ptr) : Nat :=
  match obj with
  | none => 0
  | some p => p + 1

/-- The 8 bytes of element `i` of a buffer seen as an array of 8-byte
elements. -/
def entryAt (buf : List byte_t) (i : Nat) : List byte_t := (buf.drop (8 * i)).take 8

/-- The read `asHandle[i]`: element `i` of the buffer as an `ObjectHandle`;
`none` when the element does not lie inside the buffer. -/
def handleAt (buf : List byte_t) (i : Nat) : Option ObjectHandle :=
  if 8 * i + 8 ≤ buf.length then some ⟨ofBits 8 (leValue (entryAt buf i))⟩ else none

/-- The write `asObjPtr[i] = obj`: element `i` of the buffer becomes the
pointer. -/
def setPtrAt (buf : List byte_t) (i : Nat) (obj : Option Ptr) : List byte_t :=
  buf.take (8 * i) ++ leBytes 8 (ptrBits obj) ++ buf.drop (8 * i + 8)

/-- A process like `State.sample` with the given rank in the full cluster and
in the worker group. -/
def State.sampleAt (worldRank workerRank : Int) : State :=
  { State.sample with
    world := { State.sample.world with rank := worldRank }
    worker := { State.sample.worker with rank := workerRank } }

/-- The master for the examples: the objects and handles of `State.sample` on
the process of full-cluster rank 0, which is outside the worker group and
holds a partial mirror. -/
def State.master : State :=
  { State.sampleAt 0 (-1) with fullMirror := false }

/-- Constructors for the examples: each yields an object that records the
pointer it was built from. -/
def InstanceEnv.sample : InstanceEnv :=
  { GeometryInstance := fun geom =>
      .ok { kind := .geometryInstance, refCount := 1, calls := [.GeometryInstance geom]
            task := none }
    VolumeInstance := fun volume =>
      .ok { kind := .volumeInstance, refCount := 1, calls := [.VolumeInstance volume]
            task := none } }

/-- An environment of `Pick` for the examples: tag 42, a result of 16 bytes,
and a pick whose result holds the screen position. -/
def PickEnv.sample : PickEnv :=
  { typeIdOf_Pick := 42
    sizeof_pickResult := 16
    pick := fun _ _ _ _ _ pos => leBytes 4 pos.x ++ leBytes 4 pos.y ++ leBytes 8 1 }

/-- An environment of `NewData` for the examples. -/
def DataEnv.sample : DataEnv :=
  { OSP_OBJECT := 1000, OSP_CAMERA := 1001, OSP_DATA := 1002, OSP_FRAMEBUFFER := 1003
    OSP_GEOMETRY := 1004, OSP_LIGHT := 1005, OSP_MATERIAL := 1006, OSP_WORLD := 1007
    OSP_RENDERER := 1008, OSP_TEXTURE := 1009, OSP_TRANSFER_FUNCTION := 1010
    OSP_VOLUME := 1011, OSP_PIXEL_OP := 1012, OSP_STRING := 1500
    OSP_DATA_SHARED_BUFFER := 1 }

namespace work

/-! ### Behaviour of the work items -/

/-- Member function `CommitObject::run`. -/
def CommitObject.run (self : CommitObject) (s : State) : Outcome :=
  match self.handle.lookup s with
  | .error e => .throw e s
  | .ok obj =>
    if obj.isSome then
      s.call obj .commit
    else
      .throw (.runtime_error
        ("Error: rank " ++ toString s.world.rank ++ " did not have object to commit!")) s

/-- Member function `CommitObject::runOnMaster`. -/
def CommitObject.runOnMaster (self : CommitObject) (s : State) : Outcome :=
  if self.handle.defined s then
    match self.handle.lookup s with
    | .error e => .throw e s
    | .ok obj =>
      if (dynamic_cast .renderer s obj).isSome then
        s.call obj .commit
      else .ok s
  else .ok s

/-- Member function `SetParam<std::string>::runOnMaster`. -/
def SetParam.runOnMaster (self : SetParam) (s : State) : Outcome :=
  if !self.handle.defined s then
    .ok s
  else
    match self.handle.lookup s with
    | .error e => .throw e s
    | .ok obj =>
      if (dynamic_cast .renderer s obj).isSome || (dynamic_cast .volume s obj).isSome then
        s.call obj (.setParam self.name self.val)
      else .ok s

/-- Member function `RemoveParam::runOnMaster`. -/
def RemoveParam.runOnMaster (self : RemoveParam) (s : State) : Outcome :=
  match self.handle.lookup s with
  | .error e => .throw e s
  | .ok obj =>
    if (dynamic_cast .renderer s obj).isSome || (dynamic_cast .volume s obj).isSome then
      s.call obj (.removeParam (c_str self.name))
    else .ok s

/-- Member function `CommandRelease::run`. -/
def CommandRelease.run (self : CommandRelease) (s : State) : Outcome :=
  self.handle.freeObject s

/-- Member function `CommandRelease::runOnMaster`. -/
def CommandRelease.runOnMaster (self : CommandRelease) (s : State) : Outcome :=
  if self.handle.defined s then
    self.handle.freeObject s
  else .ok s

/-- Constructor `SetRegion::SetRegion`. The table `sizeOf` of element sizes is
not under src/ and is a parameter; `src` gives the byte at each offset from
the source pointer. -/
def SetRegion.new (sizeOf : OSPDataType → Nat) (volume : ObjectHandle) (start size : vec3i)
    (src : Nat → byte_t) (type : OSPDataType) : Except Error SetRegion :=
  let bytes := mulSizeT (mulSizeT (mulSizeT (sizeOf type % 2 ^ 64) size.x) size.y) size.z
  if bytes > 2000000000 then
    .error (.runtime_error "MPI ospSetRegion does not support region sizes > 2GB")
  else
    .ok { handle := volume
          regionStart := start
          regionSize := size
          type := type
          data := (List.range bytes).map src }

/-- The body of the lambda handed to the `RenderTask`: the render call, then
the `refDec` calls. -/
def RenderClosure.call (c : RenderClosure) (s : State) : Outcome :=
  match c with
  | .worker renderer fb camera world =>
    (s.call renderer (.renderFrame fb camera world)).andThen fun s =>
    (s.refDec fb).andThen fun s =>
    (s.refDec renderer).andThen fun s =>
    (s.refDec camera).andThen fun s =>
    s.refDec world
  | .master renderer fb =>
    (s.call renderer (.renderFrame fb none none)).andThen fun s =>
    (s.refDec fb).andThen fun s =>
    s.refDec renderer

/-- Modelled from the spec: completion of the task at address `f` (section 3:
the future goes from pending to completed once the underlying computation
finishes): the closure runs, then the completion flag is set;
`render/RenderTask.h` is not under src/. -/
def RenderTask.complete (f : Ptr) (s : State) : Outcome :=
  match s.object f with
  | some o =>
    match o.task with
    | some t =>
      (RenderClosure.call t.fcn s).andThen fun s =>
      s.modify (some f) fun o => { o with task := some { t with finished := true } }
    | none => .throw .invalid_pointer s
  | none => .throw .invalid_pointer s

/-- Modelled from the spec: the constructor `RenderTask(fb, fcn)`, a pending
future on `fb` holding the closure (section 3); it touches no reference count
of another object. `render/RenderTask.h` is not under src/. -/
def RenderTask.new (fb : Option Ptr) (fcn : RenderClosure) : ManagedObject :=
  { kind := .renderTask, refCount := 1, calls := []
    task := some { fb := fb, fcn := fcn, finished := false } }

/-- Member function `RenderFrameAsync::run`. -/
def RenderFrameAsync.run (self : RenderFrameAsync) (s : State) : Outcome :=
  let s := s.world.barrier s
  match self.rendererHandle.lookup s with
  | .error e => .throw e s
  | .ok renderer =>
  match self.fbHandle.lookup s with
  | .error e => .throw e s
  | .ok fb =>
  match self.cameraHandle.lookup s with
  | .error e => .throw e s
  | .ok camera =>
  match self.worldHandle.lookup s with
  | .error e => .throw e s
  | .ok world =>
    (s.call fb (.setCompletedEvent .OSP_NONE_FINISHED)).andThen fun s =>
    (s.refInc fb).andThen fun s =>
    (s.refInc renderer).andThen fun s =>
    (s.refInc camera).andThen fun s =>
    (s.refInc world).andThen fun s =>
    let fs := s.new (RenderTask.new fb (.worker renderer fb camera world))
    .ok (self.futureHandle.assign fs.1 fs.2)

/-- Member function `RenderFrameAsync::runOnMaster`. -/
def RenderFrameAsync.runOnMaster (self : RenderFrameAsync) (s : State) : Outcome :=
  let s := s.world.barrier s
  match self.rendererHandle.lookup s with
  | .error e => .throw e s
  | .ok renderer =>
  match self.fbHandle.lookup s with
  | .error e => .throw e s
  | .ok fb =>
    (s.call fb (.setCompletedEvent .OSP_NONE_FINISHED)).andThen fun s =>
    (s.refInc fb).andThen fun s =>
    (s.refInc renderer).andThen fun s =>
    let fs := s.new (RenderTask.new fb (.master renderer fb))
    .ok (self.futureHandle.assign fs.1 fs.2)

/-- The dispatch stream of a worker executing a sequence of `RenderFrameAsync`
items in arrival order; it stops at the first exception. -/
def RenderFrameAsync.runAll : List RenderFrameAsync → State → Outcome
  | [], s => .ok s
  | c :: cs, s => (c.run s).andThen (RenderFrameAsync.runAll cs)

/-- The dispatch stream of the master executing a sequence of
`RenderFrameAsync` items in arrival order; it stops at the first exception. -/
def RenderFrameAsync.runAllOnMaster : List RenderFrameAsync → State → Outcome
  | [], s => .ok s
  | c :: cs, s => (c.runOnMaster s).andThen (RenderFrameAsync.runAllOnMaster cs)

/-- The tasks at the given addresses complete one after the other. -/
def RenderTask.completeAll : List Ptr → State → Outcome
  | [], s => .ok s
  | f :: fs, s => (RenderTask.complete f s).andThen (RenderTask.completeAll fs)

/-- The item `c` is a further request on the same dependencies as `self`: the
same framebuffer, renderer, camera and world handle, and a future handle that
is none of these four. -/
def RenderFrameAsync.sameFrame (self c : RenderFrameAsync) : Prop :=
  c.fbHandle = self.fbHandle ∧ c.rendererHandle = self.rendererHandle ∧
  c.cameraHandle = self.cameraHandle ∧ c.worldHandle = self.worldHandle ∧
  c.futureHandle.i64 ≠ self.fbHandle.i64 ∧ c.futureHandle.i64 ≠ self.rendererHandle.i64 ∧
  c.futureHandle.i64 ≠ self.cameraHandle.i64 ∧ c.futureHandle.i64 ≠ self.worldHandle.i64

instance (self c : RenderFrameAsync) : Decidable (self.sameFrame c) := by
  unfold RenderFrameAsync.sameFrame; infer_instance

/-! ### Pick -/

/-- Member function `Pick::run`. The second component tells how the call ends;
the first is the work item afterwards, with its member `pickResult`. -/
def Pick.run (E : PickEnv) (self : Pick) (s : State) : Pick × Outcome :=
  if s.world.rank = 1 then
    match self.fbHandle.lookup s with
    | .error e => (self, .throw e s)
    | .ok fb =>
    match self.rendererHandle.lookup s with
    | .error e => (self, .throw e s)
    | .ok renderer =>
    match self.cameraHandle.lookup s with
    | .error e => (self, .throw e s)
    | .ok camera =>
    match self.worldHandle.lookup s with
    | .error e => (self, .throw e s)
    | .ok world =>
      let r := s.call renderer (.pick fb camera world self.screenPos)
      match r.thrown with
      | some _ => (self, r)
      | none =>
        let self2 := { self with
          pickResult := E.pick s renderer fb camera world self.screenPos }
        let sent := mpicommon.send self2.pickResult E.sizeof_pickResult .MPI_BYTE 0
          E.typeIdOf_Pick r.state.world.comm r.state
        let s2 := mpicommon.wait sent.1 sent.2
        let b := mpicommon.barrier s2.worker.comm s2
        (self2, .ok (mpicommon.wait b.1 b.2))
  else
    let b := mpicommon.barrier s.worker.comm s
    (self, .ok (mpicommon.wait b.1 b.2))

/-- Member function `Pick::runOnMaster`; `none` stands for a receive that does
not return. -/
def Pick.runOnMaster (E : PickEnv) (self : Pick) (s : State) : Option (Pick × Outcome) :=
  let posted := mpicommon.recv E.sizeof_pickResult .MPI_BYTE 1 E.typeIdOf_Pick s.world.comm s
  match mpicommon.waitRecv E.sizeof_pickResult .MPI_BYTE 1 E.typeIdOf_Pick s.world.comm
      posted.2 with
  | none => none
  | some (.ok bytes, s2) => some ({ self with pickResult := bytes }, .ok s2)
  | some (.error e, s2) => some (self, .throw e s2)

/-! ### NewGeometryInstance and NewVolumeInstance -/

/-- Work item `NewGeometryInstance`. -/
structure NewGeometryInstance where
  handle : ObjectHandle
  geometryHandle : ObjectHandle
  deriving DecidableEq, Repr

/-- Work item `NewVolumeInstance`. -/
structure NewVolumeInstance where
  handle : ObjectHandle
  volumeHandle : ObjectHandle
  deriving DecidableEq, Repr

/-- Member function `NewGeometryInstance::run`; the constructor comes from the
environment. -/
def NewGeometryInstance.run (E : InstanceEnv) (self : NewGeometryInstance) (s : State) :
    Outcome :=
  match self.geometryHandle.lookup s with
  | .error e => .throw e s
  | .ok geom =>
    match E.GeometryInstance geom with
    | .error e => .throw e s
    | .ok o =>
      let inst := s.new o
      .ok (self.handle.assign inst.1 inst.2)

/-- Member function `NewVolumeInstance::run`; the constructor comes from the
environment. -/
def NewVolumeInstance.run (E : InstanceEnv) (self : NewVolumeInstance) (s : State) :
    Outcome :=
  match self.volumeHandle.lookup s with
  | .error e => .throw e s
  | .ok geom =>
    match E.VolumeInstance geom with
    | .error e => .throw e s
    | .ok o =>
      let inst := s.new o
      .ok (self.handle.assign inst.1 inst.2)

/-! ### NewData: constructor and run -/

/-- Constructor `NewData::NewData`. The table `sizeOf` and the flag
`OSP_DATA_SHARED_BUFFER` come from the environment; `_initMem` is `none` for a
null pointer and otherwise gives the byte at each offset. -/
def NewData.new (sizeOf : OSPDataType → Nat) (E : DataEnv) (handle : ObjectHandle)
    (nItems : Nat) (format : OSPDataType) (_initMem : Option (Nat → byte_t)) (flags : Int) :
    NewData :=
  match _initMem with
  | some initMem =>
    if nItems ≠ 0 then
      let numBytes := (sizeOf format % 2 ^ 64 * (nItems % 2 ^ 64)) % 2 ^ 64
      if Int.land flags E.OSP_DATA_SHARED_BUFFER ≠ 0 then
        { handle := handle, nItems := nItems, format := format, flags := flags
          copiedData := [], dataView := (List.range numBytes).map initMem }
      else
        { handle := handle, nItems := nItems, format := format, flags := flags
          copiedData := (List.range numBytes).map initMem
          dataView := (List.range numBytes).map initMem }
    else
      { handle := handle, nItems := nItems, format := format, flags := flags
        copiedData := [], dataView := [] }
  | none =>
    { handle := handle, nItems := nItems, format := format, flags := flags
      copiedData := [], dataView := [] }

/-- The loop `for (size_t i = 0; i < nItems; ++i)` of `NewData::run`, with `k`
items left from index `i` on: the buffer when the loop ends and the exception
that ended it, if any. -/
def NewData.translate (s : State) : Nat → Nat → List byte_t → List byte_t × Option Error
  | 0, _, buf => (buf, none)
  | k + 1, i, buf =>
    match handleAt buf i with
    | none => (buf, some .invalid_pointer)
    | some h =>
      if h ≠ nullHandle then
        match h.lookup s with
        | .error e => (buf, some e)
        | .ok obj => NewData.translate s k (i + 1) (setPtrAt buf i obj)
      else NewData.translate s k (i + 1) buf

/-- Modelled from the spec: the constructor `Data(nItems, format, init)` of the
data object (section 1: object internals are outside the core, which only
creates them), not under src/: a new object that records the item count, the
format and the bytes at `init`. -/
def Data.new (nItems : Nat) (format : OSPDataType) (init : List byte_t) : ManagedObject :=
  { kind := .data, refCount := 1, calls := [.Data nItems format init], task := none }

/-- Member function `NewData::run`. `NDEBUG` tells whether the build leaves
`assert` out. The second component tells how the call ends; the first is
the work item afterwards: the loop writes through `dataView`, and
`copiedData` changes with it when it is the storage viewed. -/
def NewData.run (E : DataEnv) (NDEBUG : Bool) (self : NewData) (s : State) :
    NewData × Outcome :=
  if !NDEBUG && decide (self.format = E.OSP_STRING) then
    (self, .throw .assertion_failed s)
  else
    let r :=
      if E.isObjectFormat self.format then NewData.translate s self.nItems 0 self.dataView
      else (self.dataView, none)
    let self2 := { self with
      dataView := r.1
      copiedData := if self.copiedData = self.dataView then r.1 else self.copiedData }
    match r.2 with
    | some e => (self2, .throw e s)
    | none =>
      let ospdata := s.new (Data.new self.nItems self.format r.1)
      (self2, .ok (self.handle.assign ospdata.1 ospdata.2))

end work

/-! ## Lemmas on the wire primitives -/

theorem leBytes_length (w n : Nat) : (leBytes w n).length = w := by
  induction w generalizing n with
  | zero => rfl
  | succ w ih => simp [leBytes, ih]

theorem leValue_leBytes (w n : Nat) : leValue (leBytes w n) = n % 256 ^ w := by
  induction w generalizing n with
  | zero => simp [leBytes, leValue, Nat.mod_one]
  | succ w ih =>
    simp only [leBytes, leValue, ih]
    rw [pow_succ, Nat.mul_comm (256 ^ w) 256, Nat.mod_mul]

theorem getUInt_append (w n : Nat) (rest : ReadStream) :
    getUInt w (leBytes w n ++ rest) = some (n % 256 ^ w, rest) := by
  have hl := leBytes_length w n
  simp [getUInt, hl, List.take_left', List.drop_left', leValue_leBytes]

theorem toBits_lt (w : Nat) (v : Int) : toBits w v < 256 ^ w := by
  unfold toBits
  have hpos : (0 : Int) < (2 : Int) ^ (8 * w) := by positivity
  have h1 := Int.emod_lt_of_pos v hpos
  have h0 := Int.emod_nonneg v (ne_of_gt hpos)
  have h256 : (256 : Nat) ^ w = 2 ^ (8 * w) := by
    rw [pow_mul]; norm_num
  rw [h256]
  have : ((v % (2 : Int) ^ (8 * w)).toNat : Int) < ((2 ^ (8 * w) : Nat) : Int) := by
    rw [Int.toNat_of_nonneg h0]; push_cast; exact h1
  exact_mod_cast this

theorem ofBits_toBits_8 (v : Int) (h : isInt64 v) : ofBits 8 (toBits 8 v) = v := by
  unfold isInt64 at h
  unfold ofBits toBits
  norm_num at h ⊢
  split_ifs with hc <;> omega

theorem ofBits_toBits_4 (v : Int) (h : isInt32 v) : ofBits 4 (toBits 4 v) = v := by
  unfold isInt32 at h
  unfold ofBits toBits
  norm_num at h ⊢
  split_ifs with hc <;> omega

theorem getInt_8_append (v : Int) (h : isInt64 v) (rest : ReadStream) :
    getInt 8 (leBytes 8 (toBits 8 v) ++ rest) = some (v, rest) := by
  have hlt := toBits_lt 8 v
  rw [getInt, getUInt_append, Nat.mod_eq_of_lt hlt]
  show some (ofBits 8 (toBits 8 v), rest) = some (v, rest)
  rw [ofBits_toBits_8 v h]

theorem getInt_4_append (v : Int) (h : isInt32 v) (rest : ReadStream) :
    getInt 4 (leBytes 4 (toBits 4 v) ++ rest) = some (v, rest) := by
  have hlt := toBits_lt 4 v
  rw [getInt, getUInt_append, Nat.mod_eq_of_lt hlt]
  show some (ofBits 4 (toBits 4 v), rest) = some (v, rest)
  rw [ofBits_toBits_4 v h]

theorem getUInt_4_append (n : Nat) (h : isUInt32 n) (rest : ReadStream) :
    getUInt 4 (leBytes 4 n ++ rest) = some (n, rest) := by
  unfold isUInt32 at h
  have hlt : n < 256 ^ 4 := by norm_num at h ⊢; exact h
  rw [getUInt_append, Nat.mod_eq_of_lt hlt]

theorem getUInt_8_append (n : Nat) (h : isSizeT n) (rest : ReadStream) :
    getUInt 8 (leBytes 8 n ++ rest) = some (n, rest) := by
  unfold isSizeT at h
  have hlt : n < 256 ^ 8 := by norm_num at h ⊢; exact h
  rw [getUInt_append, Nat.mod_eq_of_lt hlt]

theorem getBool_append (v : Bool) (rest : ReadStream) :
    getBool (leBytes 1 (if v then 1 else 0) ++ rest) = some (v, rest) := by
  cases v <;> simp [getBool, getUInt_append]

theorem getBytes_append (d : List byte_t) (h : isSizeT d.length) (rest : ReadStream) :
    getBytes (leBytes 8 d.length ++ (d ++ rest)) = some (d, rest) := by
  simp [getBytes, getUInt_8_append d.length h, List.take_left', List.drop_left']

theorem getVec2i_append (v : vec2i) (h : v.wf) (rest : ReadStream) :
    getVec2i (leBytes 4 (toBits 4 v.x) ++ (leBytes 4 (toBits 4 v.y) ++ rest)) =
      some (v, rest) := by
  obtain ⟨hx, hy⟩ := h
  simp [getVec2i, getInt_4_append, hx, hy]

theorem getVec3i_append (v : vec3i) (h : v.wf) (rest : ReadStream) :
    getVec3i (leBytes 4 (toBits 4 v.x) ++ (leBytes 4 (toBits 4 v.y) ++
      (leBytes 4 (toBits 4 v.z) ++ rest))) = some (v, rest) := by
  obtain ⟨hx, hy, hz⟩ := h
  simp [getVec3i, getInt_4_append, hx, hy, hz]

theorem getVec2f_append (v : vec2f) (h : v.wf) (rest : ReadStream) :
    getVec2f (leBytes 4 v.x ++ (leBytes 4 v.y ++ rest)) = some (v, rest) := by
  obtain ⟨hx, hy⟩ := h
  simp [getVec2f, getUInt_4_append, hx, hy]

namespace work

theorem roundtrip_CommitObject (x fresh : CommitObject) (h : x.handle.wf)
    (rest : ReadStream) :
    CommitObject.deserialize fresh (CommitObject.serialize x [] ++ rest) = some (x, rest) := by
  simp [CommitObject.deserialize, CommitObject.serialize, putInt, putUInt,
    getInt_8_append _ h]

theorem roundtrip_CommandRelease (x fresh : CommandRelease) (h : x.handle.wf)
    (rest : ReadStream) :
    CommandRelease.deserialize fresh (CommandRelease.serialize x [] ++ rest) =
      some (x, rest) := by
  simp [CommandRelease.deserialize, CommandRelease.serialize, putInt, putUInt,
    getInt_8_append _ h]

theorem roundtrip_ResetAccumulation (x fresh : ResetAccumulation) (h : x.handle.wf)
    (rest : ReadStream) :
    ResetAccumulation.deserialize fresh (ResetAccumulation.serialize x [] ++ rest) =
      some (x, rest) := by
  simp [ResetAccumulation.deserialize, ResetAccumulation.serialize, putInt, putUInt,
    getInt_8_append _ h]

theorem roundtrip_CreateFrameBuffer (x fresh : CreateFrameBuffer) (h : x.wf)
    (rest : ReadStream) :
    CreateFrameBuffer.deserialize fresh (CreateFrameBuffer.serialize x [] ++ rest) =
      some (x, rest) := by
  obtain ⟨hh, hd, hf, hc⟩ := h
  simp [CreateFrameBuffer.deserialize, CreateFrameBuffer.serialize, putInt, putUInt,
    putVec2i, getInt_8_append _ hh, getVec2i_append _ hd, getInt_4_append _ hf,
    getUInt_4_append _ hc]

theorem roundtrip_RenderFrameAsync (x fresh : RenderFrameAsync) (h : x.wf)
    (rest : ReadStream) :
    RenderFrameAsync.deserialize fresh (RenderFrameAsync.serialize x [] ++ rest) =
      some (x, rest) := by
  obtain ⟨h1, h2, h3, h4, h5⟩ := h
  simp [RenderFrameAsync.deserialize, RenderFrameAsync.serialize, putInt, putUInt,
    getInt_8_append _ h1, getInt_8_append _ h2, getInt_8_append _ h3,
    getInt_8_append _ h4, getInt_8_append _ h5]

theorem roundtrip_Pick (x fresh : Pick) (h : x.wf) (rest : ReadStream) :
    Pick.deserialize fresh (Pick.serialize x [] ++ rest) =
      some ({ x with pickResult := fresh.pickResult }, rest) := by
  obtain ⟨h1, h2, h3, h4, h5⟩ := h
  simp [Pick.deserialize, Pick.serialize, putInt, putUInt, putVec2f,
    getInt_8_append _ h1, getInt_8_append _ h2, getInt_8_append _ h3,
    getInt_8_append _ h4, getVec2f_append _ h5]

theorem roundtrip_LoadModule (x fresh : LoadModule) (h : x.wf) (rest : ReadStream) :
    LoadModule.deserialize fresh (LoadModule.serialize x [] ++ rest) =
      some ({ x with errorCode := fresh.errorCode }, rest) := by
  simp [LoadModule.deserialize, LoadModule.serialize, putBytes, putUInt,
    getBytes_append _ h]

theorem roundtrip_RemoveParam (x fresh : RemoveParam) (h : x.wf) (rest : ReadStream) :
    RemoveParam.deserialize fresh (RemoveParam.serialize x [] ++ rest) = some (x, rest) := by
  obtain ⟨h1, h2⟩ := h
  simp [RemoveParam.deserialize, RemoveParam.serialize, putBytes, putInt, putUInt,
    getInt_8_append _ h1, getBytes_append _ h2]

theorem roundtrip_NewData (x fresh : NewData) (h : x.wf) (rest : ReadStream) :
    NewData.deserialize fresh (NewData.serialize x [] ++ rest) =
      some ({ x with copiedData := x.dataView }, rest) := by
  obtain ⟨h1, h2, h3, h4, h5⟩ := h
  simp [NewData.deserialize, NewData.serialize, putBytes, putInt, putUInt,
    getInt_8_append _ h1, getUInt_8_append _ h2, getInt_4_append _ h3,
    getInt_4_append _ h4, getBytes_append _ h5]

theorem roundtrip_SetRegion (x fresh : SetRegion) (h : x.wf) (rest : ReadStream) :
    SetRegion.deserialize fresh (SetRegion.serialize x [] ++ rest) = some (x, rest) := by
  obtain ⟨h1, h2, h3, h4, h5⟩ := h
  simp [SetRegion.deserialize, SetRegion.serialize, putBytes, putInt, putUInt, putVec3i,
    getInt_8_append _ h1, getVec3i_append _ h2, getVec3i_append _ h3,
    getInt_4_append _ h4, getBytes_append _ h5]

theorem decode_SetLoadBalancer (x fresh : SetLoadBalancer) (h : isInt64 x.handleID)
    (rest : ReadStream) :
    SetLoadBalancer.deserialize fresh (SetLoadBalancer.serialize x [] ++ rest) =
      some ({ x with numTilesPreAllocated := fresh.numTilesPreAllocated }, rest) := by
  simp [SetLoadBalancer.deserialize, SetLoadBalancer.serialize, putBool, putInt, putUInt,
    getInt_8_append _ h, getBool_append]

theorem toSizeT_of_nonneg (v : Int) (h : 0 ≤ v) : toSizeT v = v.toNat % 2 ^ 64 := by
  obtain ⟨n, rfl⟩ := Int.eq_ofNat_of_zero_le h
  unfold toSizeT
  norm_num
  omega

theorem mulSizeT_chain (a : Nat) (x y z : Int) (hx : 0 ≤ x) (hy : 0 ≤ y) (hz : 0 ≤ z) :
    mulSizeT (mulSizeT (mulSizeT (a % 2 ^ 64) x) y) z =
      (a * x.toNat * y.toNat * z.toNat) % 2 ^ 64 := by
  unfold mulSizeT
  rw [toSizeT_of_nonneg x hx, toSizeT_of_nonneg y hy, toSizeT_of_nonneg z hz]
  simp [Nat.mul_mod, Nat.mod_mod]

/-- C1: for CommitObject, CommandRelease, ResetAccumulation, CreateFrameBuffer,
RenderFrameAsync, Pick, LoadModule, RemoveParam, NewData and SetRegion, and
every value `x` of the variant (fields within their C++ types; null handle,
empty name and empty data included), deserializing the bytes written by
`serialize(x)` into any fresh instance gives back every payload field of `x`
and leaves exactly the bytes that followed them in the stream. `LoadModule`
and `Pick` keep the non-payload members `errorCode` and `pickResult` of the
fresh instance, and `NewData` holds the received bytes in `copiedData` with
`dataView` viewing them. -/
theorem serialize_deserialize_roundtrip :
    (∀ (x fresh : CommitObject) (rest : ReadStream), x.handle.wf →
      CommitObject.deserialize fresh (CommitObject.serialize x [] ++ rest) =
        some (x, rest)) ∧
    (∀ (x fresh : CommandRelease) (rest : ReadStream), x.handle.wf →
      CommandRelease.deserialize fresh (CommandRelease.serialize x [] ++ rest) =
        some (x, rest)) ∧
    (∀ (x fresh : ResetAccumulation) (rest : ReadStream), x.handle.wf →
      ResetAccumulation.deserialize fresh (ResetAccumulation.serialize x [] ++ rest) =
        some (x, rest)) ∧
    (∀ (x fresh : CreateFrameBuffer) (rest : ReadStream), x.wf →
      CreateFrameBuffer.deserialize fresh (CreateFrameBuffer.serialize x [] ++ rest) =
        some (x, rest)) ∧
    (∀ (x fresh : RenderFrameAsync) (rest : ReadStream), x.wf →
      RenderFrameAsync.deserialize fresh (RenderFrameAsync.serialize x [] ++ rest) =
        some (x, rest)) ∧
    (∀ (x fresh : Pick) (rest : ReadStream), x.wf →
      Pick.deserialize fresh (Pick.serialize x [] ++ rest) =
        some ({ x with pickResult := fresh.pickResult }, rest)) ∧
    (∀ (x fresh : LoadModule) (rest : ReadStream), x.wf →
      LoadModule.deserialize fresh (LoadModule.serialize x [] ++ rest) =
        some ({ x with errorCode := fresh.errorCode }, rest)) ∧
    (∀ (x fresh : RemoveParam) (rest : ReadStream), x.wf →
      RemoveParam.deserialize fresh (RemoveParam.serialize x [] ++ rest) =
        some (x, rest)) ∧
    (∀ (x fresh : NewData) (rest : ReadStream), x.wf →
      NewData.deserialize fresh (NewData.serialize x [] ++ rest) =
        some ({ x with copiedData := x.dataView }, rest)) ∧
    (∀ (x fresh : SetRegion) (rest : ReadStream), x.wf →
      SetRegion.deserialize fresh (SetRegion.serialize x [] ++ rest) =
        some (x, rest)) :=
  ⟨fun x fresh rest h => roundtrip_CommitObject x fresh h rest,
   fun x fresh rest h => roundtrip_CommandRelease x fresh h rest,
   fun x fresh rest h => roundtrip_ResetAccumulation x fresh h rest,
   fun x fresh rest h => roundtrip_CreateFrameBuffer x fresh h rest,
   fun x fresh rest h => roundtrip_RenderFrameAsync x fresh h rest,
   fun x fresh rest h => roundtrip_Pick x fresh h rest,
   fun x fresh rest h => roundtrip_LoadModule x fresh h rest,
   fun x fresh rest h => roundtrip_RemoveParam x fresh h rest,
   fun x fresh rest h => roundtrip_NewData x fresh h rest,
   fun x fresh rest h => roundtrip_SetRegion x fresh h rest⟩

/-- C1 at concrete values: a null handle, a negative handle, an empty name, an
empty data buffer and a non-empty one, each followed by further bytes. -/
theorem serialize_deserialize_roundtrip_witness :
    CommitObject.deserialize ⟨⟨7⟩⟩ (CommitObject.serialize ⟨nullHandle⟩ [] ++ [1, 2]) =
        some (⟨nullHandle⟩, [1, 2]) ∧
    CommandRelease.deserialize ⟨⟨0⟩⟩ (CommandRelease.serialize ⟨⟨-5⟩⟩ [] ++ []) =
        some (⟨⟨-5⟩⟩, []) ∧
    ResetAccumulation.deserialize ⟨⟨0⟩⟩ (ResetAccumulation.serialize ⟨⟨300⟩⟩ [] ++ [9]) =
        some (⟨⟨300⟩⟩, [9]) ∧
    CreateFrameBuffer.deserialize ⟨⟨0⟩, ⟨0, 0⟩, 0, 0⟩
        (CreateFrameBuffer.serialize ⟨⟨12⟩, ⟨1024, 768⟩, 2, 3⟩ [] ++ [4]) =
        some (⟨⟨12⟩, ⟨1024, 768⟩, 2, 3⟩, [4]) ∧
    RenderFrameAsync.deserialize ⟨⟨0⟩, ⟨0⟩, ⟨0⟩, ⟨0⟩, ⟨0⟩⟩
        (RenderFrameAsync.serialize ⟨⟨1⟩, ⟨2⟩, ⟨3⟩, ⟨4⟩, ⟨5⟩⟩ [] ++ []) =
        some (⟨⟨1⟩, ⟨2⟩, ⟨3⟩, ⟨4⟩, ⟨5⟩⟩, []) ∧
    Pick.deserialize ⟨⟨0⟩, ⟨0⟩, ⟨0⟩, ⟨0⟩, ⟨0, 0⟩, [8]⟩
        (Pick.serialize ⟨⟨1⟩, ⟨2⟩, ⟨3⟩, ⟨4⟩, ⟨1056964608, 4290772992⟩, []⟩ [] ++ []) =
        some (⟨⟨1⟩, ⟨2⟩, ⟨3⟩, ⟨4⟩, ⟨1056964608, 4290772992⟩, [8]⟩, []) ∧
    LoadModule.deserialize ⟨[1], 5⟩ (LoadModule.serialize ⟨[], 0⟩ [] ++ [3]) =
        some (⟨[], 5⟩, [3]) ∧
    RemoveParam.deserialize ⟨⟨0⟩, []⟩ (RemoveParam.serialize ⟨⟨9⟩, [97, 98]⟩ [] ++ []) =
        some (⟨⟨9⟩, [97, 98]⟩, []) ∧
    NewData.deserialize ⟨⟨0⟩, 0, 0, 0, [], []⟩
        (NewData.serialize ⟨⟨3⟩, 0, 2000, 1, [], []⟩ [] ++ [6]) =
        some (⟨⟨3⟩, 0, 2000, 1, [], []⟩, [6]) ∧
    SetRegion.deserialize ⟨⟨0⟩, ⟨0, 0, 0⟩, ⟨0, 0, 0⟩, 0, []⟩
        (SetRegion.serialize ⟨⟨4⟩, ⟨0, -1, 2⟩, ⟨2, 1, 1⟩, 2500, [255, 0]⟩ [] ++ []) =
        some (⟨⟨4⟩, ⟨0, -1, 2⟩, ⟨2, 1, 1⟩, 2500, [255, 0]⟩, []) :=
  ⟨serialize_deserialize_roundtrip.1 _ _ _ (by decide),
   serialize_deserialize_roundtrip.2.1 _ _ _ (by decide),
   serialize_deserialize_roundtrip.2.2.1 _ _ _ (by decide),
   serialize_deserialize_roundtrip.2.2.2.1 _ _ _ (by decide),
   serialize_deserialize_roundtrip.2.2.2.2.1 _ _ _ (by decide),
   serialize_deserialize_roundtrip.2.2.2.2.2.1 _ _ _ (by decide),
   serialize_deserialize_roundtrip.2.2.2.2.2.2.1 _ _ _ (by decide),
   serialize_deserialize_roundtrip.2.2.2.2.2.2.2.1 _ _ _ (by decide),
   serialize_deserialize_roundtrip.2.2.2.2.2.2.2.2.1 _ _ _ (by decide),
   serialize_deserialize_roundtrip.2.2.2.2.2.2.2.2.2 _ _ _ (by decide)⟩

/-- C2 fails as stated: two SetLoadBalancer commands built with the counts 7
and 8 are written as the same bytes, and a receiving instance that held the
count 4 still holds 4 after decoding the command built with 7. -/
theorem SetLoadBalancer_count_not_on_wire :
    SetLoadBalancer.serialize (SetLoadBalancer.new ⟨1⟩ true 7) [] =
        SetLoadBalancer.serialize (SetLoadBalancer.new ⟨1⟩ true 8) [] ∧
    SetLoadBalancer.deserialize (SetLoadBalancer.new ⟨-1⟩ false 4)
        (SetLoadBalancer.serialize (SetLoadBalancer.new ⟨1⟩ true 7) []) =
      some (SetLoadBalancer.new ⟨1⟩ true 4, []) := by
  constructor <;> decide

/-- C2 as amended: decoding a serialized SetLoadBalancer built from a handle,
a flag and a count reproduces `handleID` and `useDynamicLoadBalancer`; the
count is not written, and the decoded command keeps the count the receiving
instance had before. -/
theorem SetLoadBalancer_roundtrip_without_count (handle : ObjectHandle) (dynamic : Bool)
    (count : Int) (fresh : SetLoadBalancer) (rest : ReadStream) (h : handle.wf) :
    SetLoadBalancer.deserialize fresh
        (SetLoadBalancer.serialize (SetLoadBalancer.new handle dynamic count) [] ++ rest) =
      some ({ useDynamicLoadBalancer := dynamic
              numTilesPreAllocated := fresh.numTilesPreAllocated
              handleID := handle.i64 }, rest) :=
  decode_SetLoadBalancer (SetLoadBalancer.new handle dynamic count) fresh h rest

/-- C2 as amended, at handle 1, dynamic, count 7, received by an instance that
held count 4 and followed by one more byte. -/
theorem SetLoadBalancer_roundtrip_without_count_witness :
    SetLoadBalancer.deserialize (SetLoadBalancer.new ⟨-1⟩ false 4)
        (SetLoadBalancer.serialize (SetLoadBalancer.new ⟨1⟩ true 7) [] ++ [5]) =
      some ({ useDynamicLoadBalancer := true, numTilesPreAllocated := 4, handleID := 1 },
        [5]) :=
  SetLoadBalancer_roundtrip_without_count ⟨1⟩ true 7 (SetLoadBalancer.new ⟨-1⟩ false 4) [5]
    (by decide)

/-- C3 fails on the code: for a region of 2^30 x 2^30 x 16 elements of any
type with a positive element size the byte size is far above 2,000,000,000,
yet the product computed in `size_t` wraps to 0, nothing is thrown and a
command with an empty data buffer is produced. -/
theorem SetRegion_new_wraps_past_cap (sizeOf : OSPDataType → Nat) (volume : ObjectHandle)
    (start : vec3i) (src : Nat → byte_t) (type : OSPDataType) (h : 0 < sizeOf type) :
    2000000000 < sizeOf type * 1073741824 * 1073741824 * 16 ∧
    SetRegion.new sizeOf volume start ⟨1073741824, 1073741824, 16⟩ src type =
      .ok { handle := volume, regionStart := start
            regionSize := ⟨1073741824, 1073741824, 16⟩, type := type, data := [] } := by
  constructor
  · nlinarith
  · have hb : mulSizeT (mulSizeT (mulSizeT (sizeOf type % 2 ^ 64) 1073741824) 1073741824) 16
        = 0 := by
      rw [mulSizeT_chain _ _ _ _ (by decide) (by decide) (by decide)]
      have : sizeOf type * (1073741824 : Int).toNat * (1073741824 : Int).toNat *
          (16 : Int).toNat = sizeOf type * 2 ^ 64 := by
        have h1 : (1073741824 : Int).toNat = 1073741824 := rfl
        have h2 : (16 : Int).toNat = 16 := rfl
        rw [h1, h2]
        ring
      rw [this, Nat.mul_mod_left]
    simp only [SetRegion.new, hb]
    rfl

/-- C3 at one-byte elements: the region 2^30 x 2^30 x 16 is accepted with an
empty buffer. -/
theorem SetRegion_new_wraps_past_cap_witness :
    0 < (fun _ : OSPDataType => 1) 2500 ∧
    2000000000 < (fun _ : OSPDataType => 1) 2500 * 1073741824 * 1073741824 * 16 ∧
    SetRegion.new (fun _ => 1) ⟨4⟩ ⟨0, 0, 0⟩ ⟨1073741824, 1073741824, 16⟩ (fun _ => 0) 2500 =
      .ok { handle := ⟨4⟩, regionStart := ⟨0, 0, 0⟩
            regionSize := ⟨1073741824, 1073741824, 16⟩, type := 2500, data := [] } :=
  ⟨by decide, SetRegion_new_wraps_past_cap (fun _ => 1) ⟨4⟩ ⟨0, 0, 0⟩ (fun _ => 0) 2500
    (by decide)⟩

/-- C4: for every element-size table, type and region size with non-negative
components whose byte size `sizeOf(type) * x * y * z` is at most
2,000,000,000, the constructor of SetRegion returns normally; the command
holds the volume handle, region start, region size and type it was given, and
a data buffer of exactly that many bytes, byte `i` of which is byte `i` of
the source. -/
theorem SetRegion_new_within_cap (sizeOf : OSPDataType → Nat) (volume : ObjectHandle)
    (start size : vec3i) (src : Nat → byte_t) (type : OSPDataType)
    (hx : 0 ≤ size.x) (hy : 0 ≤ size.y) (hz : 0 ≤ size.z)
    (hcap : sizeOf type * size.x.toNat * size.y.toNat * size.z.toNat ≤ 2000000000) :
    ∃ c : SetRegion, SetRegion.new sizeOf volume start size src type = .ok c ∧
      c.handle = volume ∧ c.regionStart = start ∧ c.regionSize = size ∧ c.type = type ∧
      c.data.length = sizeOf type * size.x.toNat * size.y.toNat * size.z.toNat ∧
      ∀ i, i < sizeOf type * size.x.toNat * size.y.toNat * size.z.toNat →
        c.data[i]? = some (src i) := by
  have hb : mulSizeT (mulSizeT (mulSizeT (sizeOf type % 2 ^ 64) size.x) size.y) size.z =
      sizeOf type * size.x.toNat * size.y.toNat * size.z.toNat := by
    rw [mulSizeT_chain _ _ _ _ hx hy hz]
    apply Nat.mod_eq_of_lt
    have : (2000000000 : Nat) < 2 ^ 64 := by norm_num
    omega
  refine ⟨{ handle := volume, regionStart := start, regionSize := size, type := type
            data := (List.range (sizeOf type * size.x.toNat * size.y.toNat *
              size.z.toNat)).map src }, ?_, rfl, rfl, rfl, rfl, ?_, ?_⟩
  · have hle : ¬ (sizeOf type * size.x.toNat * size.y.toNat * size.z.toNat > 2000000000) := by
      omega
    simp only [SetRegion.new, hb, if_neg hle]
  · simp
  · intro i hi
    simp [List.getElem?_map, List.getElem?_range hi]

/-- C4 at a region of 2 x 1 x 1 four-byte elements: 8 bytes are copied. -/
theorem SetRegion_new_within_cap_witness :
    ∃ c : SetRegion, SetRegion.new (fun _ => 4) ⟨4⟩ ⟨0, 0, 0⟩ ⟨2, 1, 1⟩ (fun i => Fin.ofNat i)
        2500 = .ok c ∧
      c.handle = ⟨4⟩ ∧ c.regionStart = ⟨0, 0, 0⟩ ∧ c.regionSize = ⟨2, 1, 1⟩ ∧ c.type = 2500 ∧
      c.data.length = 4 * (2 : Int).toNat * (1 : Int).toNat * (1 : Int).toNat ∧
      ∀ i, i < 4 * (2 : Int).toNat * (1 : Int).toNat * (1 : Int).toNat →
        c.data[i]? = some ((fun i => Fin.ofNat i) i) :=
  SetRegion_new_within_cap (fun _ => 4) ⟨4⟩ ⟨0, 0, 0⟩ ⟨2, 1, 1⟩ (fun i => Fin.ofNat i) 2500
    (by decide) (by decide) (by decide) (by decide)

theorem resolve_eq_some {s : State} {h : ObjectHandle} {p : Ptr} {o : ManagedObject}
    (hres : s.resolve h = some (p, o)) :
    h ≠ nullHandle ∧ s.objectByHandle h.i64 = some p ∧ s.object p = some o := by
  unfold State.resolve at hres
  split at hres
  · exact absurd hres (by simp)
  · rename_i hn
    split at hres
    · rename_i q hq
      split at hres
      · rename_i o2 ho
        simp only [Option.some.injEq, Prod.mk.injEq] at hres
        obtain ⟨rfl, rfl⟩ := hres
        exact ⟨hn, hq, ho⟩
      · exact absurd hres (by simp)
    · exact absurd hres (by simp)

theorem resolve_eq_none {s : State} {h : ObjectHandle} (hres : s.resolve h = none) :
    h = nullHandle ∨ s.objectByHandle h.i64 = none ∨
      ∃ p, s.objectByHandle h.i64 = some p ∧ s.object p = none := by
  unfold State.resolve at hres
  split at hres
  · rename_i hn; exact Or.inl hn
  · split at hres
    · rename_i q hq
      split at hres
      · exact absurd hres (by simp)
      · rename_i ho
        exact Or.inr (Or.inr ⟨q, hq, ho⟩)
    · rename_i hq
      exact Or.inr (Or.inl hq)

theorem object_set_none (s : State) (p : Ptr) :
    ({ s with heap := s.heap.set p none } : State).object p = none := by
  unfold State.object
  by_cases hp : p < s.heap.length
  · simp [List.getElem?_set, hp]
  · simp [List.getElem?_set, hp]

/-- C5: on every master-side state and for every handle,
`CommitObject::runOnMaster` returns normally; if the handle resolves to a
renderer-kind object, that object receives exactly one more `commit()` and
nothing else changes; in every other case (an object of another kind, volume
included, or no object) the state, with every object and the handle table, is
left as it was. -/
theorem CommitObject_runOnMaster_commits_renderer_only (self : CommitObject) (s : State) :
    (∀ p o, s.resolve self.handle = some (p, o) → o.kind = .renderer →
      CommitObject.runOnMaster self s =
        .ok (s.setObject p { o with calls := o.calls ++ [.commit] })) ∧
    ((∀ p o, s.resolve self.handle = some (p, o) → o.kind ≠ .renderer) →
      CommitObject.runOnMaster self s = .ok s) := by
  constructor
  · intro p o hres hk
    obtain ⟨hn, hm, ho⟩ := resolve_eq_some hres
    simp [CommitObject.runOnMaster, ObjectHandle.defined, ObjectHandle.lookup, hn, hm, ho,
      dynamic_cast, hk, State.call, State.modify]
  · intro hall
    cases hres : s.resolve self.handle with
    | some po =>
      obtain ⟨p, o⟩ := po
      have hk := hall p o hres
      obtain ⟨hn, hm, ho⟩ := resolve_eq_some hres
      simp [CommitObject.runOnMaster, ObjectHandle.defined, ObjectHandle.lookup, hn, hm, ho,
        dynamic_cast, hk]
    | none =>
      cases hm : s.objectByHandle self.handle.i64 with
      | none => simp [CommitObject.runOnMaster, ObjectHandle.defined, hm]
      | some q =>
        by_cases hn : self.handle = nullHandle
        · rw [hn] at hm
          simp [CommitObject.runOnMaster, ObjectHandle.defined, ObjectHandle.lookup, hn, hm,
            dynamic_cast]
        · rcases resolve_eq_none hres with hn2 | hm2 | ⟨p, hm2, ho⟩
          · exact absurd hn2 hn
          · rw [hm2] at hm; cases hm
          · simp [CommitObject.runOnMaster, ObjectHandle.defined, ObjectHandle.lookup, hn,
              hm2, ho, dynamic_cast]

/-- C5 on the sample process: committing handle 5 (a renderer) records one
commit on the object at address 0; committing handle 6 (a volume) changes
nothing. -/
theorem CommitObject_runOnMaster_commits_renderer_only_witness :
    CommitObject.runOnMaster ⟨⟨5⟩⟩ State.sample =
        .ok (State.sample.setObject 0 ⟨.renderer, 1, [.commit], none⟩) ∧
    CommitObject.runOnMaster ⟨⟨6⟩⟩ State.sample = .ok State.sample :=
  ⟨(CommitObject_runOnMaster_commits_renderer_only ⟨⟨5⟩⟩ State.sample).1 0
      ⟨.renderer, 1, [], none⟩ (by decide) (by decide),
   (CommitObject_runOnMaster_commits_renderer_only ⟨⟨6⟩⟩ State.sample).2 (by
      intro p o h
      have hv : State.sample.resolve ⟨6⟩ = some (1, ⟨.volume, 1, [], none⟩) := by decide
      rw [hv] at h
      cases h
      decide)⟩

theorem c_str_of_no_nul (name : std_string) (h : (0 : byte_t) ∉ name) : c_str name = name := by
  unfold c_str
  rw [List.takeWhile_eq_self_iff]
  intro c hc
  have : c ≠ 0 := fun h0 => h (h0 ▸ hc)
  simpa using this

/-- C6: for a handle that resolves on the master to the object `o` at address
`p`, `SetParam<std::string>::runOnMaster` makes the call `setParam(name, val)`
on that object if its kind is renderer or volume and otherwise changes
nothing; `RemoveParam::runOnMaster`, for a name without a NUL byte, makes the
call `removeParam(name)` on that object if its kind is renderer or volume and
otherwise changes nothing. Both return normally. -/
theorem setParam_removeParam_runOnMaster_renderer_or_volume (s : State) (h : ObjectHandle)
    (p : Ptr) (o : ManagedObject) (name val : std_string)
    (hres : s.resolve h = some (p, o)) (hname : (0 : byte_t) ∉ name) :
    (o.kind = .renderer ∨ o.kind = .volume →
      SetParam.runOnMaster ⟨h, name, val⟩ s =
          .ok (s.setObject p { o with calls := o.calls ++ [.setParam name val] }) ∧
      RemoveParam.runOnMaster ⟨h, name⟩ s =
          .ok (s.setObject p { o with calls := o.calls ++ [.removeParam name] })) ∧
    (¬ (o.kind = .renderer ∨ o.kind = .volume) →
      SetParam.runOnMaster ⟨h, name, val⟩ s = .ok s ∧
      RemoveParam.runOnMaster ⟨h, name⟩ s = .ok s) := by
  obtain ⟨hn, hm, ho⟩ := resolve_eq_some hres
  have hc := c_str_of_no_nul name hname
  constructor
  · intro hk
    rcases hk with hk | hk
    · simp [SetParam.runOnMaster, RemoveParam.runOnMaster, ObjectHandle.defined,
        ObjectHandle.lookup, hn, hm, ho, dynamic_cast, hk, State.call, State.modify, hc]
    · simp [SetParam.runOnMaster, RemoveParam.runOnMaster, ObjectHandle.defined,
        ObjectHandle.lookup, hn, hm, ho, dynamic_cast, hk, State.call, State.modify, hc]
  · intro hk
    have h1 : o.kind ≠ .renderer := fun e => hk (Or.inl e)
    have h2 : o.kind ≠ .volume := fun e => hk (Or.inr e)
    simp [SetParam.runOnMaster, RemoveParam.runOnMaster, ObjectHandle.defined,
      ObjectHandle.lookup, hn, hm, ho, dynamic_cast, h1, h2]

/-- C6 on the sample process, at handle 6 (a volume) and handle 7 (a camera),
with name "ab" and value "c". -/
theorem setParam_removeParam_runOnMaster_renderer_or_volume_witness :
    (SetParam.runOnMaster ⟨⟨6⟩, [97, 98], [99]⟩ State.sample =
        .ok (State.sample.setObject 1 ⟨.volume, 1, [.setParam [97, 98] [99]], none⟩) ∧
      RemoveParam.runOnMaster ⟨⟨6⟩, [97, 98]⟩ State.sample =
        .ok (State.sample.setObject 1 ⟨.volume, 1, [.removeParam [97, 98]], none⟩)) ∧
    (SetParam.runOnMaster ⟨⟨7⟩, [97, 98], [99]⟩ State.sample = .ok State.sample ∧
      RemoveParam.runOnMaster ⟨⟨7⟩, [97, 98]⟩ State.sample = .ok State.sample) :=
  ⟨(setParam_removeParam_runOnMaster_renderer_or_volume State.sample ⟨6⟩ 1
      ⟨.volume, 1, [], none⟩ [97, 98] [99] (by decide) (by decide)).1 (by decide),
   (setParam_removeParam_runOnMaster_renderer_or_volume State.sample ⟨7⟩ 2
      ⟨.camera, 1, [], none⟩ [97, 98] [99] (by decide) (by decide)).2 (by decide)⟩

/-- C7: on every master-side state and for every handle `h`,
`CommandRelease::runOnMaster` returns normally. If `h` is assigned to address
`p`, the object at `p` is freed and the mapping of `h` removed; if `h` is not
assigned, the state is left as it was. In both cases `h` is not assigned
afterwards and every other mapping is as before. `CommandRelease::run` is
`freeObject` on the handle, without the test, and does the same as
`runOnMaster` when `h` is assigned. -/
theorem CommandRelease_runOnMaster_guarded (self : CommandRelease) (s : State) :
    (∀ p, s.objectByHandle self.handle.i64 = some p →
      CommandRelease.runOnMaster self s =
        .ok { s with heap := s.heap.set p none
                     objectByHandle := fun k =>
                       if k = self.handle.i64 then none else s.objectByHandle k } ∧
      (CommandRelease.runOnMaster self s).state.object p = none) ∧
    (s.objectByHandle self.handle.i64 = none → CommandRelease.runOnMaster self s = .ok s) ∧
    (CommandRelease.runOnMaster self s).thrown = none ∧
    (CommandRelease.runOnMaster self s).state.objectByHandle self.handle.i64 = none ∧
    (∀ k, k ≠ self.handle.i64 →
      (CommandRelease.runOnMaster self s).state.objectByHandle k = s.objectByHandle k) ∧
    CommandRelease.run self s = self.handle.freeObject s ∧
    (∀ p, s.objectByHandle self.handle.i64 = some p →
      CommandRelease.run self s = CommandRelease.runOnMaster self s) := by
  cases hm : s.objectByHandle self.handle.i64 with
  | none =>
    simp [CommandRelease.runOnMaster, CommandRelease.run, ObjectHandle.defined, hm,
      Outcome.ok]
  | some p =>
    have hrun : CommandRelease.runOnMaster self s =
        .ok { s with heap := s.heap.set p none
                     objectByHandle := fun k =>
                       if k = self.handle.i64 then none else s.objectByHandle k } := by
      simp [CommandRelease.runOnMaster, ObjectHandle.defined, ObjectHandle.freeObject, hm]
    refine ⟨?_, ?_, ?_, ?_, ?_, rfl, ?_⟩
    · intro q hq
      cases hq
      refine ⟨hrun, ?_⟩
      rw [hrun]
      exact object_set_none _ p
    · intro hnone; cases hnone
    · rw [hrun]; rfl
    · rw [hrun]; simp [Outcome.ok]
    · intro k hk
      rw [hrun]; simp [Outcome.ok, hk]
    · intro q _
      simp [CommandRelease.run, CommandRelease.runOnMaster, ObjectHandle.defined, hm]

/-- C7 on the sample process: releasing handle 5 frees address 0 and removes
the mapping; releasing handle 10, which is not assigned, changes nothing. -/
theorem CommandRelease_runOnMaster_guarded_witness :
    (CommandRelease.runOnMaster ⟨⟨5⟩⟩ State.sample =
        .ok { State.sample with
              heap := State.sample.heap.set 0 none
              objectByHandle := fun k =>
                if k = (⟨5⟩ : ObjectHandle).i64 then none
                else State.sample.objectByHandle k } ∧
      (CommandRelease.runOnMaster ⟨⟨5⟩⟩ State.sample).state.object 0 = none) ∧
    CommandRelease.runOnMaster ⟨⟨10⟩⟩ State.sample = .ok State.sample :=
  ⟨(CommandRelease_runOnMaster_guarded ⟨⟨5⟩⟩ State.sample).1 0 (by decide),
   (CommandRelease_runOnMaster_guarded ⟨⟨10⟩⟩ State.sample).2.1 (by decide)⟩

/-- C8: for every handle without entry in the handle table of the master,
whose mirror is partial (the non-null handles that were never assigned there
or were released are such handles), `CommitObject::runOnMaster`,
`SetParam<std::string>::runOnMaster` and `RemoveParam::runOnMaster` all return
normally with the state as it was: no operation is called on any object and
the handle table is unchanged. The first two return by their test of
`defined()`, on every process. `RemoveParam::runOnMaster` has no such test: it
looks the handle up and ends as the lookup does, normally with the state as it
was when the lookup finds nothing (both casts of the null pointer fail), and
by the error of the lookup if the lookup fails. -/
theorem runOnMaster_on_unassigned_handle (s : State) (h : ObjectHandle)
    (name val : std_string) (hm : s.objectByHandle h.i64 = none) :
    (s.fullMirror = false →
      CommitObject.runOnMaster ⟨h⟩ s = .ok s ∧
      SetParam.runOnMaster ⟨h, name, val⟩ s = .ok s ∧
      RemoveParam.runOnMaster ⟨h, name⟩ s = .ok s) ∧
    CommitObject.runOnMaster ⟨h⟩ s = .ok s ∧
    SetParam.runOnMaster ⟨h, name, val⟩ s = .ok s ∧
    (h.lookup s = .ok none → RemoveParam.runOnMaster ⟨h, name⟩ s = .ok s) ∧
    (∀ e, h.lookup s = .error e → RemoveParam.runOnMaster ⟨h, name⟩ s = .throw e s) := by
  have hc : CommitObject.runOnMaster ⟨h⟩ s = .ok s := by
    simp [CommitObject.runOnMaster, ObjectHandle.defined, hm]
  have hs : SetParam.runOnMaster ⟨h, name, val⟩ s = .ok s := by
    simp [SetParam.runOnMaster, ObjectHandle.defined, hm]
  refine ⟨?_, hc, hs, ?_, ?_⟩
  · intro hmaster
    refine ⟨hc, hs, ?_⟩
    simp [RemoveParam.runOnMaster, ObjectHandle.lookup, State.signalsDangling, hm, hmaster,
      dynamic_cast]
  · intro hl
    simp [RemoveParam.runOnMaster, hl, dynamic_cast]
  · intro e hl
    simp [RemoveParam.runOnMaster, hl]

/-- C8 on the sample master, where handle 10 is not assigned: committing it,
setting its parameter "x" and removing its parameter "x" all return normally
and leave the master, with its five objects, as it was. -/
theorem runOnMaster_on_unassigned_handle_witness :
    State.master.fullMirror = false ∧
    CommitObject.runOnMaster ⟨⟨10⟩⟩ State.master = .ok State.master ∧
    SetParam.runOnMaster ⟨⟨10⟩, [120], [1]⟩ State.master = .ok State.master ∧
    RemoveParam.runOnMaster ⟨⟨10⟩, [120]⟩ State.master = .ok State.master :=
  ⟨by decide,
   (runOnMaster_on_unassigned_handle State.master ⟨10⟩ [120] [1] (by decide)).1
      (by decide)⟩

/-- C9: on every worker-side state and for every handle, `CommitObject::run`
throws if and only if the handle does not resolve to an object (it is null,
not assigned, or names a freed object); when it resolves, the object receives
exactly one more `commit()`, nothing else changes and nothing is thrown; when
it throws, the state is as it was. -/
theorem CommitObject_run_throws_iff_unresolved (self : CommitObject) (s : State) :
    ((CommitObject.run self s).thrown ≠ none ↔ s.resolve self.handle = none) ∧
    (∀ p o, s.resolve self.handle = some (p, o) →
      CommitObject.run self s =
        .ok (s.setObject p { o with calls := o.calls ++ [.commit] })) ∧
    (s.resolve self.handle = none → (CommitObject.run self s).state = s) := by
  cases hres : s.resolve self.handle with
  | some po =>
    obtain ⟨p, o⟩ := po
    obtain ⟨hn, hm, ho⟩ := resolve_eq_some hres
    have hrun : CommitObject.run self s =
        .ok (s.setObject p { o with calls := o.calls ++ [.commit] }) := by
      simp [CommitObject.run, ObjectHandle.lookup, hn, hm, ho, State.call, State.modify]
    refine ⟨?_, ?_, ?_⟩
    · rw [hrun]; simp [Outcome.ok]
    · intro q o2 hq
      simp only [Option.some.injEq, Prod.mk.injEq] at hq
      obtain ⟨rfl, rfl⟩ := hq
      exact hrun
    · intro hnone; cases hnone
  | none =>
    cases hm : s.objectByHandle self.handle.i64 with
    | none =>
      cases hsig : s.signalsDangling self.handle <;>
        simp [CommitObject.run, ObjectHandle.lookup, hm, hsig, Outcome.throw]
    | some q =>
      by_cases hn : self.handle = nullHandle
      · rw [hn] at hm
        simp [CommitObject.run, ObjectHandle.lookup, hn, hm, Outcome.throw]
      · rcases resolve_eq_none hres with hn2 | hm2 | ⟨p, hm2, ho⟩
        · exact absurd hn2 hn
        · rw [hm2] at hm; cases hm
        · simp [CommitObject.run, ObjectHandle.lookup, hn, hm2, ho, State.call, State.modify,
            Outcome.throw]

/-- C9 on the sample process: committing handle 7 (a camera) records one
commit at address 2; committing handle 10, which is not assigned, throws and
leaves the state as it was. -/
theorem CommitObject_run_throws_iff_unresolved_witness :
    CommitObject.run ⟨⟨7⟩⟩ State.sample =
        .ok (State.sample.setObject 2 ⟨.camera, 1, [.commit], none⟩) ∧
    (CommitObject.run ⟨⟨10⟩⟩ State.sample).thrown ≠ none ∧
    (CommitObject.run ⟨⟨10⟩⟩ State.sample).state = State.sample :=
  ⟨(CommitObject_run_throws_iff_unresolved ⟨⟨7⟩⟩ State.sample).2.1 2
      ⟨.camera, 1, [], none⟩ (by decide),
   (CommitObject_run_throws_iff_unresolved ⟨⟨10⟩⟩ State.sample).1.2 (by decide),
   (CommitObject_run_throws_iff_unresolved ⟨⟨10⟩⟩ State.sample).2.2 (by decide)⟩

/-! ### Heap lemmas -/

theorem object_eq_some_iff (s : State) (p : Ptr) (o : ManagedObject) :
    s.object p = some o ↔ s.heap[p]? = some (some o) := by
  unfold State.object
  rw [List.get?_eq_getElem?]
  cases h : s.heap[p]? with
  | none => simp
  | some x =>
    cases x with
    | none => simp
    | some o2 => simp

theorem object_lt_length {s : State} {p : Ptr} {o : ManagedObject} (h : s.object p = some o) :
    p < s.heap.length := by
  rw [object_eq_some_iff] at h
  by_contra hlt
  rw [List.getElem?_eq_none (Nat.le_of_not_lt hlt)] at h
  cases h

theorem object_setObject_same {s : State} {p : Ptr} {o : ManagedObject} (o2 : ManagedObject)
    (h : s.object p = some o) : (s.setObject p o2).object p = some o2 := by
  have hlt := object_lt_length h
  rw [object_eq_some_iff]
  simp [State.setObject, List.getElem?_set, hlt]

theorem object_setObject_other (s : State) {p q : Ptr} (o2 : ManagedObject) (h : q ≠ p) :
    (s.setObject p o2).object q = s.object q := by
  unfold State.object State.setObject
  simp only [List.get?_eq_getElem?]
  rw [List.getElem?_set_ne (Ne.symm h)]

theorem modify_of_object {s : State} {p : Ptr} {o : ManagedObject}
    (f : ManagedObject → ManagedObject) (h : s.object p = some o) :
    s.modify (some p) f = .ok (s.setObject p (f o)) := by
  simp [State.modify, h]

theorem andThen_ok (s : State) (f : State → Outcome) : (Outcome.ok s).andThen f = f s := rfl

theorem object_new_same (s : State) (o : ManagedObject) :
    (s.new o).2.object s.heap.length = some o := by
  rw [object_eq_some_iff]
  simp [State.new]

theorem object_new_other (s : State) (o : ManagedObject) {q : Ptr} (h : q ≠ s.heap.length) :
    (s.new o).2.object q = s.object q := by
  unfold State.object State.new
  simp only [List.get?_eq_getElem?]
  by_cases hq : q < s.heap.length
  · rw [List.getElem?_append_left hq]
  · have hle : s.heap.length ≤ q := Nat.le_of_not_lt hq
    have hlt : s.heap.length < q := Nat.lt_of_le_of_ne hle (Ne.symm h)
    have h1 : s.heap[q]? = none := List.getElem?_eq_none hle
    have h2 : (s.heap ++ [some o])[q]? = none :=
      List.getElem?_eq_none (by simpa using hlt)
    rw [h1, h2]

theorem object_setObject (s : State) (p q : Ptr) (o2 : ManagedObject) :
    (s.setObject p o2).object q =
      if q = p then (if p < s.heap.length then some o2 else none) else s.object q := by
  by_cases h : q = p
  · subst h
    simp only [if_true]
    by_cases hlt : q < s.heap.length
    · rw [if_pos hlt, object_eq_some_iff]
      simp [State.setObject, List.getElem?_set, hlt]
    · rw [if_neg hlt]
      unfold State.object State.setObject
      simp only [List.get?_eq_getElem?]
      rw [List.getElem?_eq_none (by simpa using Nat.le_of_not_lt hlt)]
  · rw [if_neg h, object_setObject_other s o2 h]

theorem setObject_length (s : State) (p : Ptr) (o2 : ManagedObject) :
    (s.setObject p o2).heap.length = s.heap.length := by
  simp [State.setObject]

theorem object_new (s : State) (o : ManagedObject) (q : Ptr) :
    (s.new o).2.object q = if q = s.heap.length then some o else s.object q := by
  by_cases h : q = s.heap.length
  · rw [if_pos h, h]; exact object_new_same s o
  · rw [if_neg h]; exact object_new_other s o h

theorem new_length (s : State) (o : ManagedObject) :
    (s.new o).2.heap.length = s.heap.length + 1 := by
  simp [State.new]

theorem object_assign (h : ObjectHandle) (p : Ptr) (s : State) (q : Ptr) :
    (h.assign p s).object q = s.object q := rfl

theorem object_barrier (g : Group) (s : State) (q : Ptr) :
    (g.barrier s).object q = s.object q := rfl

theorem worker_closure_call (t : State) (pf pr pc pw : Ptr) (of or_ oc ow : ManagedObject)
    (hf : t.object pf = some of) (hr : t.object pr = some or_)
    (hc : t.object pc = some oc) (hw : t.object pw = some ow)
    (hfr : pf ≠ pr) (hfc : pf ≠ pc) (hfw : pf ≠ pw) (hrc : pr ≠ pc) (hrw : pr ≠ pw)
    (hcw : pc ≠ pw) :
    ∃ t2, RenderClosure.call (.worker (some pr) (some pf) (some pc) (some pw)) t = .ok t2 ∧
      t2.objectByHandle = t.objectByHandle ∧ t2.heap.length = t.heap.length ∧
      t2.object pf = some { of with refCount := of.refCount - 1 } ∧
      t2.object pr = some { or_ with
        calls := or_.calls ++ [.renderFrame (some pf) (some pc) (some pw)]
        refCount := or_.refCount - 1 } ∧
      t2.object pc = some { oc with refCount := oc.refCount - 1 } ∧
      t2.object pw = some { ow with refCount := ow.refCount - 1 } ∧
      ∀ q, q ≠ pf → q ≠ pr → q ≠ pc → q ≠ pw → t2.object q = t.object q := by
  have lf := object_lt_length hf
  have lr := object_lt_length hr
  have lc := object_lt_length hc
  have lw := object_lt_length hw
  have hcall : RenderClosure.call (.worker (some pr) (some pf) (some pc) (some pw)) t =
      .ok (((((t.setObject pr { or_ with
          calls := or_.calls ++ [.renderFrame (some pf) (some pc) (some pw)] }).setObject pf
          { of with refCount := of.refCount - 1 }).setObject pr { or_ with
            calls := or_.calls ++ [.renderFrame (some pf) (some pc) (some pw)]
            refCount := or_.refCount - 1 }).setObject pc
          { oc with refCount := oc.refCount - 1 }).setObject pw
          { ow with refCount := ow.refCount - 1 }) := by
    simp [RenderClosure.call, State.call, State.refDec, State.modify, Outcome.andThen,
      Outcome.ok, object_setObject, setObject_length, hf, hr, hc, hw, lf, lr, lc, lw,
      hfr, hfc, hfw, hrc, hrw, hcw, hfr.symm, hfc.symm, hfw.symm, hrc.symm, hrw.symm, hcw.symm]
  refine ⟨_, hcall, rfl, ?_, ?_, ?_, ?_, ?_, ?_⟩
  · simp [setObject_length]
  · simp [object_setObject, setObject_length, lf, hfr, hfc, hfw]
  · simp [object_setObject, setObject_length, lr, hrc, hrw]
  · simp [object_setObject, setObject_length, lc, hcw]
  · simp [object_setObject, setObject_length, lw]
  · intro q h1 h2 h3 h4
    simp [object_setObject, h1, h2, h3, h4]

theorem master_closure_call (t : State) (pf pr : Ptr) (of or_ : ManagedObject)
    (hf : t.object pf = some of) (hr : t.object pr = some or_) (hfr : pf ≠ pr) :
    ∃ t2, RenderClosure.call (.master (some pr) (some pf)) t = .ok t2 ∧
      t2.objectByHandle = t.objectByHandle ∧ t2.heap.length = t.heap.length ∧
      t2.object pf = some { of with refCount := of.refCount - 1 } ∧
      t2.object pr = some { or_ with
        calls := or_.calls ++ [.renderFrame (some pf) none none]
        refCount := or_.refCount - 1 } ∧
      ∀ q, q ≠ pf → q ≠ pr → t2.object q = t.object q := by
  have lf := object_lt_length hf
  have lr := object_lt_length hr
  have hcall : RenderClosure.call (.master (some pr) (some pf)) t =
      .ok (((t.setObject pr { or_ with
          calls := or_.calls ++ [.renderFrame (some pf) none none] }).setObject pf
          { of with refCount := of.refCount - 1 }).setObject pr { or_ with
            calls := or_.calls ++ [.renderFrame (some pf) none none]
            refCount := or_.refCount - 1 }) := by
    simp [RenderClosure.call, State.call, State.refDec, State.modify, Outcome.andThen,
      Outcome.ok, object_setObject, setObject_length, hf, hr, lf, lr, hfr, hfr.symm]
  refine ⟨_, hcall, rfl, ?_, ?_, ?_, ?_⟩
  · simp [setObject_length]
  · simp [object_setObject, setObject_length, lf, hfr]
  · simp [object_setObject, setObject_length, lr]
  · intro q h1 h2
    simp [object_setObject, h1, h2]

theorem lookup_of_assigned {s : State} {h : ObjectHandle} {p : Ptr} (hn : h ≠ nullHandle)
    (hm : s.objectByHandle h.i64 = some p) (g : Group) :
    h.lookup (g.barrier s) = .ok (some p) := by
  simp [ObjectHandle.lookup, hn, Group.barrier, hm]

theorem worker_run_effect (self : RenderFrameAsync) (s : State) (pf pr pc pw : Ptr)
    (of or_ oc ow : ManagedObject)
    (nf : self.fbHandle ≠ nullHandle) (nr : self.rendererHandle ≠ nullHandle)
    (nc : self.cameraHandle ≠ nullHandle) (nw : self.worldHandle ≠ nullHandle)
    (mf : s.objectByHandle self.fbHandle.i64 = some pf)
    (mr : s.objectByHandle self.rendererHandle.i64 = some pr)
    (mc : s.objectByHandle self.cameraHandle.i64 = some pc)
    (mw : s.objectByHandle self.worldHandle.i64 = some pw)
    (hf : s.object pf = some of) (hr : s.object pr = some or_)
    (hc : s.object pc = some oc) (hw : s.object pw = some ow)
    (hfr : pf ≠ pr) (hfc : pf ≠ pc) (hfw : pf ≠ pw) (hrc : pr ≠ pc) (hrw : pr ≠ pw)
    (hcw : pc ≠ pw) :
    ∃ s2, RenderFrameAsync.run self s = .ok s2 ∧
      s2.objectByHandle = (fun k =>
        if k = self.futureHandle.i64 then some s.heap.length else s.objectByHandle k) ∧
      s2.heap.length = s.heap.length + 1 ∧
      s2.object s.heap.length = some (RenderTask.new (some pf)
        (.worker (some pr) (some pf) (some pc) (some pw))) ∧
      s2.object pf = some { of with
        calls := of.calls ++ [.setCompletedEvent .OSP_NONE_FINISHED]
        refCount := of.refCount + 1 } ∧
      s2.object pr = some { or_ with refCount := or_.refCount + 1 } ∧
      s2.object pc = some { oc with refCount := oc.refCount + 1 } ∧
      s2.object pw = some { ow with refCount := ow.refCount + 1 } ∧
      ∀ q, q ≠ pf → q ≠ pr → q ≠ pc → q ≠ pw → q ≠ s.heap.length →
        s2.object q = s.object q := by
  have lf := object_lt_length hf
  have lr := object_lt_length hr
  have lc := object_lt_length hc
  have lw := object_lt_length hw
  have h0 : (s.world.barrier s).heap.length = s.heap.length := rfl
  have hrun : RenderFrameAsync.run self s =
      .ok (self.futureHandle.assign s.heap.length
        (State.new ((((((s.world.barrier s).setObject pf { of with
          calls := of.calls ++ [.setCompletedEvent .OSP_NONE_FINISHED] }).setObject pf
          { of with calls := of.calls ++ [.setCompletedEvent .OSP_NONE_FINISHED]
                    refCount := of.refCount + 1 }).setObject pr
          { or_ with refCount := or_.refCount + 1 }).setObject pc
          { oc with refCount := oc.refCount + 1 }).setObject pw
          { ow with refCount := ow.refCount + 1 })
          (RenderTask.new (some pf)
          (.worker (some pr) (some pf) (some pc) (some pw)))).2) := by
    simp only [RenderFrameAsync.run, lookup_of_assigned nf mf, lookup_of_assigned nr mr,
      lookup_of_assigned nc mc, lookup_of_assigned nw mw]
    simp [State.call, State.refInc, State.modify, Outcome.andThen,
      Outcome.ok, object_setObject, setObject_length, object_barrier, h0, hf, hr, hc, hw,
      lf, lr, lc, lw, hfr, hfc, hfw, hrc, hrw, hcw, hfr.symm, hfc.symm, hfw.symm, hrc.symm,
      hrw.symm, hcw.symm, State.new]
  refine ⟨_, hrun, ?_, ?_, ?_, ?_, ?_, ?_, ?_, ?_⟩
  · funext k
    simp [ObjectHandle.assign, State.new, State.setObject, Group.barrier]
  · simp [ObjectHandle.assign, new_length, setObject_length, h0]
  · have := object_new_same ((((((s.world.barrier s).setObject pf { of with
          calls := of.calls ++ [.setCompletedEvent .OSP_NONE_FINISHED] }).setObject pf
          { of with calls := of.calls ++ [.setCompletedEvent .OSP_NONE_FINISHED]
                    refCount := of.refCount + 1 }).setObject pr
          { or_ with refCount := or_.refCount + 1 }).setObject pc
          { oc with refCount := oc.refCount + 1 }).setObject pw
          { ow with refCount := ow.refCount + 1 })
          (RenderTask.new (some pf)
          (.worker (some pr) (some pf) (some pc) (some pw)))
    simpa [object_assign, setObject_length, h0] using this
  · simp [object_assign, object_new, object_setObject, setObject_length, object_barrier, h0,
      lf, hfr, hfc, hfw, Nat.ne_of_lt lf]
  · simp [object_assign, object_new, object_setObject, setObject_length, object_barrier, h0,
      lr, hrc, hrw, Nat.ne_of_lt lr]
  · simp [object_assign, object_new, object_setObject, setObject_length, object_barrier, h0,
      lc, hcw, Nat.ne_of_lt lc]
  · simp [object_assign, object_new, object_setObject, setObject_length, object_barrier, h0,
      lw, Nat.ne_of_lt lw]
  · intro q h1 h2 h3 h4 h5
    simp [object_assign, object_new, object_setObject, setObject_length, object_barrier, h0,
      h1, h2, h3, h4, h5]

theorem master_run_effect (self : RenderFrameAsync) (s : State) (pf pr : Ptr)
    (of or_ : ManagedObject)
    (nf : self.fbHandle ≠ nullHandle) (nr : self.rendererHandle ≠ nullHandle)
    (mf : s.objectByHandle self.fbHandle.i64 = some pf)
    (mr : s.objectByHandle self.rendererHandle.i64 = some pr)
    (hf : s.object pf = some of) (hr : s.object pr = some or_) (hfr : pf ≠ pr) :
    ∃ s2, RenderFrameAsync.runOnMaster self s = .ok s2 ∧
      s2.objectByHandle = (fun k =>
        if k = self.futureHandle.i64 then some s.heap.length else s.objectByHandle k) ∧
      s2.heap.length = s.heap.length + 1 ∧
      s2.object s.heap.length = some (RenderTask.new (some pf)
        (.master (some pr) (some pf))) ∧
      s2.object pf = some { of with
        calls := of.calls ++ [.setCompletedEvent .OSP_NONE_FINISHED]
        refCount := of.refCount + 1 } ∧
      s2.object pr = some { or_ with refCount := or_.refCount + 1 } ∧
      ∀ q, q ≠ pf → q ≠ pr → q ≠ s.heap.length → s2.object q = s.object q := by
  have lf := object_lt_length hf
  have lr := object_lt_length hr
  have h0 : (s.world.barrier s).heap.length = s.heap.length := rfl
  have hrun : RenderFrameAsync.runOnMaster self s =
      .ok (self.futureHandle.assign s.heap.length
        (State.new ((((s.world.barrier s).setObject pf { of with
          calls := of.calls ++ [.setCompletedEvent .OSP_NONE_FINISHED] }).setObject pf
          { of with calls := of.calls ++ [.setCompletedEvent .OSP_NONE_FINISHED]
                    refCount := of.refCount + 1 }).setObject pr
          { or_ with refCount := or_.refCount + 1 })
          (RenderTask.new (some pf) (.master (some pr) (some pf)))).2) := by
    simp only [RenderFrameAsync.runOnMaster, lookup_of_assigned nf mf,
      lookup_of_assigned nr mr]
    simp [State.call, State.refInc, State.modify, Outcome.andThen,
      Outcome.ok, object_setObject, setObject_length, object_barrier, h0, hf, hr,
      lf, lr, hfr, hfr.symm, State.new]
  refine ⟨_, hrun, ?_, ?_, ?_, ?_, ?_, ?_⟩
  · funext k
    simp [ObjectHandle.assign, State.new, State.setObject, Group.barrier]
  · simp [ObjectHandle.assign, new_length, setObject_length, h0]
  · have := object_new_same ((((s.world.barrier s).setObject pf { of with
          calls := of.calls ++ [.setCompletedEvent .OSP_NONE_FINISHED] }).setObject pf
          { of with calls := of.calls ++ [.setCompletedEvent .OSP_NONE_FINISHED]
                    refCount := of.refCount + 1 }).setObject pr
          { or_ with refCount := or_.refCount + 1 })
          (RenderTask.new (some pf) (.master (some pr) (some pf)))
    simpa [object_assign, setObject_length, h0] using this
  · simp [object_assign, object_new, object_setObject, setObject_length, object_barrier, h0,
      lf, hfr, Nat.ne_of_lt lf]
  · simp [object_assign, object_new, object_setObject, setObject_length, object_barrier, h0,
      lr, Nat.ne_of_lt lr]
  · intro q h1 h2 h5
    simp [object_assign, object_new, object_setObject, setObject_length, object_barrier, h0,
      h1, h2, h5]

theorem worker_complete_effect (t : State) (a pf pr pc pw : Ptr)
    (of or_ oc ow : ManagedObject)
    (ha : t.object a = some (RenderTask.new (some pf)
      (.worker (some pr) (some pf) (some pc) (some pw))))
    (hf : t.object pf = some of) (hr : t.object pr = some or_)
    (hc : t.object pc = some oc) (hw : t.object pw = some ow)
    (hfr : pf ≠ pr) (hfc : pf ≠ pc) (hfw : pf ≠ pw) (hrc : pr ≠ pc) (hrw : pr ≠ pw)
    (hcw : pc ≠ pw) (haf : a ≠ pf) (har : a ≠ pr) (hac : a ≠ pc) (haw : a ≠ pw) :
    ∃ t2, RenderTask.complete a t = .ok t2 ∧
      t2.objectByHandle = t.objectByHandle ∧ t2.heap.length = t.heap.length ∧
      t2.object pf = some { of with refCount := of.refCount - 1 } ∧
      t2.object pr = some { or_ with
        calls := or_.calls ++ [.renderFrame (some pf) (some pc) (some pw)]
        refCount := or_.refCount - 1 } ∧
      t2.object pc = some { oc with refCount := oc.refCount - 1 } ∧
      t2.object pw = some { ow with refCount := ow.refCount - 1 } ∧
      (∃ oa, t2.object a = some oa ∧
        oa.task = some ⟨some pf, .worker (some pr) (some pf) (some pc) (some pw), true⟩) ∧
      ∀ q, q ≠ pf → q ≠ pr → q ≠ pc → q ≠ pw → q ≠ a → t2.object q = t.object q := by
  obtain ⟨t1, hcall, htab, hlen, h1f, h1r, h1c, h1w, hrest⟩ :=
    worker_closure_call t pf pr pc pw of or_ oc ow hf hr hc hw hfr hfc hfw hrc hrw hcw
  have h1a : t1.object a = some (RenderTask.new (some pf)
      (.worker (some pr) (some pf) (some pc) (some pw))) := by
    rw [hrest a haf har hac haw]; exact ha
  have hcomp : RenderTask.complete a t = .ok (t1.setObject a
      { RenderTask.new (some pf) (.worker (some pr) (some pf) (some pc) (some pw)) with
        task := some ⟨some pf, .worker (some pr) (some pf) (some pc) (some pw), true⟩ }) := by
    simp [RenderTask.complete, ha, RenderTask.new, hcall, Outcome.andThen, Outcome.ok,
      State.modify]
    have h1a2 := h1a
    simp only [RenderTask.new] at h1a2
    simp [h1a2]
  refine ⟨_, hcomp, ?_, ?_, ?_, ?_, ?_, ?_, ?_, ?_⟩
  · exact htab
  · rw [setObject_length]; exact hlen
  · rw [object_setObject_other _ _ (Ne.symm haf)]; exact h1f
  · rw [object_setObject_other _ _ (Ne.symm har)]; exact h1r
  · rw [object_setObject_other _ _ (Ne.symm hac)]; exact h1c
  · rw [object_setObject_other _ _ (Ne.symm haw)]; exact h1w
  · exact ⟨_, object_setObject_same _ h1a, rfl⟩
  · intro q q1 q2 q3 q4 q5
    rw [object_setObject_other _ _ q5]; exact hrest q q1 q2 q3 q4

theorem master_complete_effect (t : State) (a pf pr : Ptr) (of or_ : ManagedObject)
    (ha : t.object a = some (RenderTask.new (some pf) (.master (some pr) (some pf))))
    (hf : t.object pf = some of) (hr : t.object pr = some or_)
    (hfr : pf ≠ pr) (haf : a ≠ pf) (har : a ≠ pr) :
    ∃ t2, RenderTask.complete a t = .ok t2 ∧
      t2.objectByHandle = t.objectByHandle ∧ t2.heap.length = t.heap.length ∧
      t2.object pf = some { of with refCount := of.refCount - 1 } ∧
      t2.object pr = some { or_ with
        calls := or_.calls ++ [.renderFrame (some pf) none none]
        refCount := or_.refCount - 1 } ∧
      (∃ oa, t2.object a = some oa ∧
        oa.task = some ⟨some pf, .master (some pr) (some pf), true⟩) ∧
      ∀ q, q ≠ pf → q ≠ pr → q ≠ a → t2.object q = t.object q := by
  obtain ⟨t1, hcall, htab, hlen, h1f, h1r, hrest⟩ :=
    master_closure_call t pf pr of or_ hf hr hfr
  have h1a : t1.object a = some (RenderTask.new (some pf) (.master (some pr) (some pf))) := by
    rw [hrest a haf har]; exact ha
  have hcomp : RenderTask.complete a t = .ok (t1.setObject a
      { RenderTask.new (some pf) (.master (some pr) (some pf)) with
        task := some ⟨some pf, .master (some pr) (some pf), true⟩ }) := by
    simp [RenderTask.complete, ha, RenderTask.new, hcall, Outcome.andThen, Outcome.ok,
      State.modify]
    have h1a2 := h1a
    simp only [RenderTask.new] at h1a2
    simp [h1a2]
  refine ⟨_, hcomp, ?_, ?_, ?_, ?_, ?_, ?_⟩
  · exact htab
  · rw [setObject_length]; exact hlen
  · rw [object_setObject_other _ _ (Ne.symm haf)]; exact h1f
  · rw [object_setObject_other _ _ (Ne.symm har)]; exact h1r
  · exact ⟨_, object_setObject_same _ h1a, rfl⟩
  · intro q q1 q2 q5
    rw [object_setObject_other _ _ q5]; exact hrest q q1 q2

theorem worker_runAll_effect (self : RenderFrameAsync) (pf pr pc pw : Ptr)
    (nf : self.fbHandle ≠ nullHandle) (nr : self.rendererHandle ≠ nullHandle)
    (nc : self.cameraHandle ≠ nullHandle) (nw : self.worldHandle ≠ nullHandle)
    (hfr : pf ≠ pr) (hfc : pf ≠ pc) (hfw : pf ≠ pw) (hrc : pr ≠ pc) (hrw : pr ≠ pw)
    (hcw : pc ≠ pw) :
    ∀ (cmds : List RenderFrameAsync) (s : State) (of or_ oc ow : ManagedObject),
      (∀ c ∈ cmds, self.sameFrame c) →
      s.objectByHandle self.fbHandle.i64 = some pf →
      s.objectByHandle self.rendererHandle.i64 = some pr →
      s.objectByHandle self.cameraHandle.i64 = some pc →
      s.objectByHandle self.worldHandle.i64 = some pw →
      s.object pf = some of → s.object pr = some or_ →
      s.object pc = some oc → s.object pw = some ow →
      ∃ s2, RenderFrameAsync.runAll cmds s = .ok s2 ∧
        s2.heap.length = s.heap.length + cmds.length ∧
        (∃ o, s2.object pf = some o ∧ o.refCount = of.refCount + cmds.length) ∧
        (∃ o, s2.object pr = some o ∧ o.refCount = or_.refCount + cmds.length) ∧
        (∃ o, s2.object pc = some o ∧ o.refCount = oc.refCount + cmds.length) ∧
        (∃ o, s2.object pw = some o ∧ o.refCount = ow.refCount + cmds.length) ∧
        (∀ i, i < cmds.length → s2.object (s.heap.length + i) =
          some (RenderTask.new (some pf) (.worker (some pr) (some pf) (some pc) (some pw)))) ∧
        (∀ q, q ≠ pf → q ≠ pr → q ≠ pc → q ≠ pw → q < s.heap.length →
          s2.object q = s.object q) := by
  intro cmds
  induction cmds with
  | nil =>
    intro s of or_ oc ow _ _ _ _ _ hf hr hc hw
    refine ⟨s, rfl, by simp, ⟨of, hf, by simp⟩, ⟨or_, hr, by simp⟩, ⟨oc, hc, by simp⟩,
      ⟨ow, hw, by simp⟩, ?_, ?_⟩
    · intro i hi; simp at hi
    · intro q _ _ _ _ _; rfl
  | cons c cs ih =>
    intro s of or_ oc ow hall mf mr mc mw hf hr hc hw
    obtain ⟨e1, e2, e3, e4, d1, d2, d3, d4⟩ := hall c (List.mem_cons_self c cs)
    have lf : pf < s.heap.length := object_lt_length hf
    have lr : pr < s.heap.length := object_lt_length hr
    have lc : pc < s.heap.length := object_lt_length hc
    have lw : pw < s.heap.length := object_lt_length hw
    obtain ⟨s1, hrun, htab, hlen, htask, h1f, h1r, h1c, h1w, hrest⟩ :=
      worker_run_effect c s pf pr pc pw of or_ oc ow (e1 ▸ nf) (e2 ▸ nr) (e3 ▸ nc) (e4 ▸ nw)
        (e1 ▸ mf) (e2 ▸ mr) (e3 ▸ mc) (e4 ▸ mw) hf hr hc hw hfr hfc hfw hrc hrw hcw
    have m1f : s1.objectByHandle self.fbHandle.i64 = some pf := by
      rw [htab]; simp [Ne.symm d1, mf]
    have m1r : s1.objectByHandle self.rendererHandle.i64 = some pr := by
      rw [htab]; simp [Ne.symm d2, mr]
    have m1c : s1.objectByHandle self.cameraHandle.i64 = some pc := by
      rw [htab]; simp [Ne.symm d3, mc]
    have m1w : s1.objectByHandle self.worldHandle.i64 = some pw := by
      rw [htab]; simp [Ne.symm d4, mw]
    obtain ⟨s2, hall2, hlen2, ⟨o2f, g2f, c2f⟩, ⟨o2r, g2r, c2r⟩, ⟨o2c, g2c, c2c⟩,
        ⟨o2w, g2w, c2w⟩, htasks, hrest2⟩ :=
      ih s1 _ _ _ _ (fun c2 h2 => hall c2 (List.mem_cons_of_mem c h2)) m1f m1r m1c m1w
        h1f h1r h1c h1w
    refine ⟨s2, ?_, ?_, ⟨o2f, g2f, ?_⟩, ⟨o2r, g2r, ?_⟩, ⟨o2c, g2c, ?_⟩, ⟨o2w, g2w, ?_⟩,
      ?_, ?_⟩
    · simp only [RenderFrameAsync.runAll, hrun, andThen_ok]; exact hall2
    · rw [hlen2, hlen, List.length_cons]; omega
    · rw [c2f, List.length_cons]; push_cast; ring
    · rw [c2r, List.length_cons]; push_cast; ring
    · rw [c2c, List.length_cons]; push_cast; ring
    · rw [c2w, List.length_cons]; push_cast; ring
    · intro i hi
      cases i with
      | zero =>
        rw [Nat.add_zero, hrest2 s.heap.length (Nat.ne_of_gt lf) (Nat.ne_of_gt lr)
          (Nat.ne_of_gt lc) (Nat.ne_of_gt lw) (by rw [hlen]; exact Nat.lt_succ_self _)]
        exact htask
      | succ j =>
        have hj : j < cs.length := by
          rw [List.length_cons] at hi; omega
        have := htasks j hj
        rw [hlen] at this
        have e : s.heap.length + (j + 1) = s.heap.length + 1 + j := by omega
        rw [e]; exact this
    · intro q q1 q2 q3 q4 q5
      rw [hrest2 q q1 q2 q3 q4 (by rw [hlen]; exact Nat.lt_succ_of_lt q5)]
      exact hrest q q1 q2 q3 q4 (Nat.ne_of_lt q5)

theorem worker_completeAll_effect (pf pr pc pw : Ptr)
    (hfr : pf ≠ pr) (hfc : pf ≠ pc) (hfw : pf ≠ pw) (hrc : pr ≠ pc) (hrw : pr ≠ pw)
    (hcw : pc ≠ pw) :
    ∀ (tasks : List Ptr) (t : State) (of or_ oc ow : ManagedObject),
      tasks.Nodup →
      (∀ a ∈ tasks, a ≠ pf ∧ a ≠ pr ∧ a ≠ pc ∧ a ≠ pw ∧ t.object a =
        some (RenderTask.new (some pf) (.worker (some pr) (some pf) (some pc) (some pw)))) →
      t.object pf = some of → t.object pr = some or_ →
      t.object pc = some oc → t.object pw = some ow →
      ∃ t2, RenderTask.completeAll tasks t = .ok t2 ∧
        (∃ o, t2.object pf = some o ∧ o.refCount = of.refCount - tasks.length) ∧
        (∃ o, t2.object pr = some o ∧ o.refCount = or_.refCount - tasks.length) ∧
        (∃ o, t2.object pc = some o ∧ o.refCount = oc.refCount - tasks.length) ∧
        (∃ o, t2.object pw = some o ∧ o.refCount = ow.refCount - tasks.length) := by
  intro tasks
  induction tasks with
  | nil =>
    intro t of or_ oc ow _ _ hf hr hc hw
    exact ⟨t, rfl, ⟨of, hf, by simp⟩, ⟨or_, hr, by simp⟩, ⟨oc, hc, by simp⟩,
      ⟨ow, hw, by simp⟩⟩
  | cons a as ih =>
    intro t of or_ oc ow hnd hall hf hr hc hw
    obtain ⟨haf, har, hac, haw, ha⟩ := hall a (List.mem_cons_self a as)
    obtain ⟨hna, hnd2⟩ := List.nodup_cons.mp hnd
    obtain ⟨t1, hcomp, _, _, h1f, h1r, h1c, h1w, _, hrest⟩ :=
      worker_complete_effect t a pf pr pc pw of or_ oc ow ha hf hr hc hw hfr hfc hfw hrc hrw
        hcw haf har hac haw
    have hall1 : ∀ b ∈ as, b ≠ pf ∧ b ≠ pr ∧ b ≠ pc ∧ b ≠ pw ∧ t1.object b =
        some (RenderTask.new (some pf) (.worker (some pr) (some pf) (some pc) (some pw))) := by
      intro b hb
      obtain ⟨b1, b2, b3, b4, b5⟩ := hall b (List.mem_cons_of_mem a hb)
      have hba : b ≠ a := fun e => hna (e ▸ hb)
      exact ⟨b1, b2, b3, b4, by rw [hrest b b1 b2 b3 b4 hba]; exact b5⟩
    obtain ⟨t2, hall2, ⟨o2f, g2f, c2f⟩, ⟨o2r, g2r, c2r⟩, ⟨o2c, g2c, c2c⟩, ⟨o2w, g2w, c2w⟩⟩ :=
      ih t1 _ _ _ _ hnd2 hall1 h1f h1r h1c h1w
    refine ⟨t2, ?_, ⟨o2f, g2f, ?_⟩, ⟨o2r, g2r, ?_⟩, ⟨o2c, g2c, ?_⟩, ⟨o2w, g2w, ?_⟩⟩
    · simp only [RenderTask.completeAll, hcomp, andThen_ok]; exact hall2
    · rw [c2f, List.length_cons]; push_cast; ring
    · rw [c2r, List.length_cons]; push_cast; ring
    · rw [c2c, List.length_cons]; push_cast; ring
    · rw [c2w, List.length_cons]; push_cast; ring

theorem master_runAll_effect (self : RenderFrameAsync) (pf pr : Ptr)
    (nf : self.fbHandle ≠ nullHandle) (nr : self.rendererHandle ≠ nullHandle)
    (hfr : pf ≠ pr) :
    ∀ (cmds : List RenderFrameAsync) (s : State) (of or_ : ManagedObject),
      (∀ c ∈ cmds, self.sameFrame c) →
      s.objectByHandle self.fbHandle.i64 = some pf →
      s.objectByHandle self.rendererHandle.i64 = some pr →
      s.object pf = some of → s.object pr = some or_ →
      ∃ s2, RenderFrameAsync.runAllOnMaster cmds s = .ok s2 ∧
        s2.heap.length = s.heap.length + cmds.length ∧
        (∃ o, s2.object pf = some o ∧ o.refCount = of.refCount + cmds.length) ∧
        (∃ o, s2.object pr = some o ∧ o.refCount = or_.refCount + cmds.length) ∧
        (∀ i, i < cmds.length → s2.object (s.heap.length + i) =
          some (RenderTask.new (some pf) (.master (some pr) (some pf)))) ∧
        (∀ q, q ≠ pf → q ≠ pr → q < s.heap.length → s2.object q = s.object q) := by
  intro cmds
  induction cmds with
  | nil =>
    intro s of or_ _ _ _ hf hr
    refine ⟨s, rfl, by simp, ⟨of, hf, by simp⟩, ⟨or_, hr, by simp⟩, ?_, ?_⟩
    · intro i hi; simp at hi
    · intro q _ _ _; rfl
  | cons c cs ih =>
    intro s of or_ hall mf mr hf hr
    obtain ⟨e1, e2, _, _, d1, d2, _, _⟩ := hall c (List.mem_cons_self c cs)
    have lf : pf < s.heap.length := object_lt_length hf
    have lr : pr < s.heap.length := object_lt_length hr
    obtain ⟨s1, hrun, htab, hlen, htask, h1f, h1r, hrest⟩ :=
      master_run_effect c s pf pr of or_ (e1 ▸ nf) (e2 ▸ nr) (e1 ▸ mf) (e2 ▸ mr) hf hr hfr
    have m1f : s1.objectByHandle self.fbHandle.i64 = some pf := by
      rw [htab]; simp [Ne.symm d1, mf]
    have m1r : s1.objectByHandle self.rendererHandle.i64 = some pr := by
      rw [htab]; simp [Ne.symm d2, mr]
    obtain ⟨s2, hall2, hlen2, ⟨o2f, g2f, c2f⟩, ⟨o2r, g2r, c2r⟩, htasks, hrest2⟩ :=
      ih s1 _ _ (fun c2 h2 => hall c2 (List.mem_cons_of_mem c h2)) m1f m1r h1f h1r
    refine ⟨s2, ?_, ?_, ⟨o2f, g2f, ?_⟩, ⟨o2r, g2r, ?_⟩, ?_, ?_⟩
    · simp only [RenderFrameAsync.runAllOnMaster, hrun, andThen_ok]; exact hall2
    · rw [hlen2, hlen, List.length_cons]; omega
    · rw [c2f, List.length_cons]; push_cast; ring
    · rw [c2r, List.length_cons]; push_cast; ring
    · intro i hi
      cases i with
      | zero =>
        rw [Nat.add_zero, hrest2 s.heap.length (Nat.ne_of_gt lf) (Nat.ne_of_gt lr)
          (by rw [hlen]; exact Nat.lt_succ_self _)]
        exact htask
      | succ j =>
        have hj : j < cs.length := by
          rw [List.length_cons] at hi; omega
        have := htasks j hj
        rw [hlen] at this
        have e : s.heap.length + (j + 1) = s.heap.length + 1 + j := by omega
        rw [e]; exact this
    · intro q q1 q2 q5
      rw [hrest2 q q1 q2 (by rw [hlen]; exact Nat.lt_succ_of_lt q5)]
      exact hrest q q1 q2 (Nat.ne_of_lt q5)

theorem master_completeAll_effect (pf pr : Ptr) (hfr : pf ≠ pr) :
    ∀ (tasks : List Ptr) (t : State) (of or_ : ManagedObject),
      tasks.Nodup →
      (∀ a ∈ tasks, a ≠ pf ∧ a ≠ pr ∧ t.object a =
        some (RenderTask.new (some pf) (.master (some pr) (some pf)))) →
      t.object pf = some of → t.object pr = some or_ →
      ∃ t2, RenderTask.completeAll tasks t = .ok t2 ∧
        (∃ o, t2.object pf = some o ∧ o.refCount = of.refCount - tasks.length) ∧
        (∃ o, t2.object pr = some o ∧ o.refCount = or_.refCount - tasks.length) := by
  intro tasks
  induction tasks with
  | nil =>
    intro t of or_ _ _ hf hr
    exact ⟨t, rfl, ⟨of, hf, by simp⟩, ⟨or_, hr, by simp⟩⟩
  | cons a as ih =>
    intro t of or_ hnd hall hf hr
    obtain ⟨haf, har, ha⟩ := hall a (List.mem_cons_self a as)
    obtain ⟨hna, hnd2⟩ := List.nodup_cons.mp hnd
    obtain ⟨t1, hcomp, _, _, h1f, h1r, _, hrest⟩ :=
      master_complete_effect t a pf pr of or_ ha hf hr hfr haf har
    have hall1 : ∀ b ∈ as, b ≠ pf ∧ b ≠ pr ∧ t1.object b =
        some (RenderTask.new (some pf) (.master (some pr) (some pf))) := by
      intro b hb
      obtain ⟨b1, b2, b5⟩ := hall b (List.mem_cons_of_mem a hb)
      have hba : b ≠ a := fun e => hna (e ▸ hb)
      exact ⟨b1, b2, by rw [hrest b b1 b2 hba]; exact b5⟩
    obtain ⟨t2, hall2, ⟨o2f, g2f, c2f⟩, ⟨o2r, g2r, c2r⟩⟩ :=
      ih t1 _ _ hnd2 hall1 h1f h1r
    refine ⟨t2, ?_, ⟨o2f, g2f, ?_⟩, ⟨o2r, g2r, ?_⟩⟩
    · simp only [RenderTask.completeAll, hcomp, andThen_ok]; exact hall2
    · rw [c2f, List.length_cons]; push_cast; ring
    · rw [c2r, List.length_cons]; push_cast; ring

theorem refCountAt_of_object {s : State} {p : Ptr} {o : ManagedObject}
    (h : s.object p = some o) : s.refCountAt p = some o.refCount := by
  simp [State.refCountAt, h]

theorem taskAddresses_nodup (base n : Nat) :
    ((List.range n).map fun i => base + i).Nodup :=
  (List.nodup_range n).map (fun _ _ h => Nat.add_left_cancel h)

theorem mem_taskAddresses {base n a : Nat} (h : a ∈ (List.range n).map fun i => base + i) :
    ∃ i, i < n ∧ a = base + i := by
  obtain ⟨i, hi, rfl⟩ := List.mem_map.mp h
  exact ⟨i, List.mem_range.mp hi, rfl⟩

theorem nodup_four {pf pr pc pw : Ptr} (hd : [pf, pr, pc, pw].Nodup) :
    pf ≠ pr ∧ pf ≠ pc ∧ pf ≠ pw ∧ pr ≠ pc ∧ pr ≠ pw ∧ pc ≠ pw := by
  simp only [List.nodup_cons, List.mem_cons, List.mem_singleton, not_or, List.not_mem_nil,
    List.nodup_nil, not_false_eq_true, and_true] at hd
  obtain ⟨⟨a, b, c⟩, ⟨d, e⟩, f⟩ := hd
  exact ⟨a, b, c, d, e, f⟩

theorem rankIn_world (s : State) : s.rankIn s.world.comm = s.world.rank := by
  simp [State.rankIn]

theorem Pick_run_other_rank (E : PickEnv) (self : Pick) (s : State) (h : s.world.rank ≠ 1) :
    Pick.run E self s =
      (self, .ok { s with events := s.events ++
        [.post (.barrier s.worker.comm), .wait (.barrier s.worker.comm)] }) := by
  simp [Pick.run, h, mpicommon.barrier, mpicommon.wait, mpicommon.post]

theorem Pick_run_designated (E : PickEnv) (self : Pick) (s : State)
    (fb camera world : Option Ptr) (pr : Ptr) (or_ : ManagedObject)
    (h : s.world.rank = 1)
    (hf : self.fbHandle.lookup s = .ok fb)
    (hr : self.rendererHandle.lookup s = .ok (some pr))
    (hc : self.cameraHandle.lookup s = .ok camera)
    (hw : self.worldHandle.lookup s = .ok world)
    (ho : s.object pr = some or_) :
    Pick.run E self s =
      ({ self with pickResult := E.pick s (some pr) fb camera world self.screenPos },
        .ok { s.setObject pr
                { or_ with calls := or_.calls ++ [.pick fb camera world self.screenPos] } with
              events := s.events ++
                [.post (.send
                    { comm := s.world.comm, source := 1, dest := 0, tag := E.typeIdOf_Pick
                      datatype := .MPI_BYTE, count := E.sizeof_pickResult
                      payload := E.pick s (some pr) fb camera world self.screenPos }),
                 .wait (.send
                    { comm := s.world.comm, source := 1, dest := 0, tag := E.typeIdOf_Pick
                      datatype := .MPI_BYTE, count := E.sizeof_pickResult
                      payload := E.pick s (some pr) fb camera world self.screenPos }),
                 .post (.barrier s.worker.comm), .wait (.barrier s.worker.comm)] }) := by
  simp [Pick.run, h, hf, hr, hc, hw, State.call, State.modify, ho, Outcome.ok,
    mpicommon.send, mpicommon.barrier, mpicommon.wait, mpicommon.post, State.rankIn,
    State.setObject]

theorem Pick_run_cases (E : PickEnv) (self : Pick) (s : State) :
    ((Pick.run E self s).2.thrown = none ∧
      ((s.world.rank ≠ 1 ∧ (Pick.run E self s).2.state.events = s.events ++
          [.post (.barrier s.worker.comm), .wait (.barrier s.worker.comm)]) ∨
        (s.world.rank = 1 ∧ ∃ m, (Pick.run E self s).2.state.events = s.events ++
          [.post (.send m), .wait (.send m), .post (.barrier s.worker.comm),
           .wait (.barrier s.worker.comm)]))) ∨
    ((Pick.run E self s).2.thrown ≠ none ∧ s.world.rank = 1 ∧
      (Pick.run E self s).2.state = s) := by
  by_cases h : s.world.rank = 1
  · cases hf : self.fbHandle.lookup s with
    | error e => right; simp [Pick.run, h, hf, Outcome.throw]
    | ok fb =>
      cases hr : self.rendererHandle.lookup s with
      | error e => right; simp [Pick.run, h, hf, hr, Outcome.throw]
      | ok renderer =>
        cases hc : self.cameraHandle.lookup s with
        | error e => right; simp [Pick.run, h, hf, hr, hc, Outcome.throw]
        | ok camera =>
          cases hw : self.worldHandle.lookup s with
          | error e => right; simp [Pick.run, h, hf, hr, hc, hw, Outcome.throw]
          | ok world =>
            cases renderer with
            | none =>
              right
              simp [Pick.run, h, hf, hr, hc, hw, State.call, State.modify, Outcome.throw]
            | some pr =>
              cases ho : s.object pr with
              | none =>
                right
                simp [Pick.run, h, hf, hr, hc, hw, State.call, State.modify, ho,
                  Outcome.throw]
              | some or_ =>
                left
                rw [Pick_run_designated E self s fb camera world pr or_ h hf hr hc hw ho]
                refine ⟨rfl, Or.inr ⟨h, _, rfl⟩⟩
  · left
    rw [Pick_run_other_rank E self s h]
    exact ⟨rfl, Or.inl ⟨h, rfl⟩⟩

/-- C11 fails as stated: on a process that is the first of the worker group
(worker rank 0) with rank 2 in the full cluster, `Pick::run` only passes the
barrier: no pick is computed, nothing is sent; and on a process with rank 1 in
the full cluster that is the second of the worker group (worker rank 1) it
computes the pick and sends the result. -/
theorem Pick_run_selects_by_world_rank_not_worker_rank :
    (State.sampleAt 2 0).worker.rank = 0 ∧
    Pick.run PickEnv.sample ⟨⟨8⟩, ⟨5⟩, ⟨7⟩, ⟨9⟩, ⟨3, 4⟩, []⟩ (State.sampleAt 2 0) =
      (⟨⟨8⟩, ⟨5⟩, ⟨7⟩, ⟨9⟩, ⟨3, 4⟩, []⟩,
        .ok { State.sampleAt 2 0 with
              events := [.post (.barrier 3), .wait (.barrier 3)] }) ∧
    (State.sampleAt 1 1).worker.rank = 1 ∧
    (Pick.run PickEnv.sample ⟨⟨8⟩, ⟨5⟩, ⟨7⟩, ⟨9⟩, ⟨3, 4⟩, []⟩
        (State.sampleAt 1 1)).2.state.events =
      [.post (.send ⟨1, 1, 0, 42, .MPI_BYTE, 16,
          [3, 0, 0, 0, 4, 0, 0, 0, 1, 0, 0, 0, 0, 0, 0, 0]⟩),
       .wait (.send ⟨1, 1, 0, 42, .MPI_BYTE, 16,
          [3, 0, 0, 0, 4, 0, 0, 0, 1, 0, 0, 0, 0, 0, 0, 0]⟩),
       .post (.barrier 3), .wait (.barrier 3)] := by
  refine ⟨rfl, ?_, rfl, ?_⟩
  · exact Pick_run_other_rank _ _ _ (by decide)
  · decide

/-- C11 as amended: `Pick::run` selects the process by its rank in the full
cluster. On a process whose full-cluster rank is not 1 it computes nothing and
sends nothing, whatever its rank in the worker group: the work item and the
heap stay as they were and only the barrier on the worker group is recorded.
On the process whose full-cluster rank is 1, when the four lookups succeed and
the renderer is live, it records the pick on the renderer, stores the result
in `pickResult` and sends it to rank 0. That process is the first of the
worker group exactly in a layout where the worker rank is the full-cluster
rank minus one. -/
theorem Pick_run_computes_iff_world_rank_1 (E : PickEnv) (self : Pick) (s : State) :
    (s.world.rank ≠ 1 →
      Pick.run E self s =
        (self, .ok { s with events := s.events ++
          [.post (.barrier s.worker.comm), .wait (.barrier s.worker.comm)] })) ∧
    (s.world.rank = 1 →
      ∀ (fb camera world : Option Ptr) (pr : Ptr) (or_ : ManagedObject),
        self.fbHandle.lookup s = .ok fb →
        self.rendererHandle.lookup s = .ok (some pr) →
        self.cameraHandle.lookup s = .ok camera →
        self.worldHandle.lookup s = .ok world →
        s.object pr = some or_ →
        (Pick.run E self s).1.pickResult =
          E.pick s (some pr) fb camera world self.screenPos ∧
        (Pick.run E self s).2.thrown = none ∧
        (Pick.run E self s).2.state.object pr =
          some { or_ with calls := or_.calls ++ [.pick fb camera world self.screenPos] } ∧
        (Pick.run E self s).2.state.events = s.events ++
          [.post (.send
              { comm := s.world.comm, source := 1, dest := 0, tag := E.typeIdOf_Pick
                datatype := .MPI_BYTE, count := E.sizeof_pickResult
                payload := E.pick s (some pr) fb camera world self.screenPos }),
           .wait (.send
              { comm := s.world.comm, source := 1, dest := 0, tag := E.typeIdOf_Pick
                datatype := .MPI_BYTE, count := E.sizeof_pickResult
                payload := E.pick s (some pr) fb camera world self.screenPos }),
           .post (.barrier s.worker.comm), .wait (.barrier s.worker.comm)]) ∧
    (s.worker.rank = s.world.rank - 1 → (s.world.rank = 1 ↔ s.worker.rank = 0)) := by
  refine ⟨Pick_run_other_rank E self s, ?_, ?_⟩
  · intro h fb camera world pr or_ hf hr hc hw ho
    rw [Pick_run_designated E self s fb camera world pr or_ h hf hr hc hw ho]
    refine ⟨rfl, rfl, ?_, rfl⟩
    exact object_setObject_same _ ho
  · intro hl
    constructor <;> intro h <;> omega

/-- C11 as amended, on sample processes: with full-cluster rank 2 and worker
rank 0 nothing is computed; with full-cluster rank 1 (worker rank 0) the
result of the pick is stored and sent. -/
theorem Pick_run_computes_iff_world_rank_1_witness :
    Pick.run PickEnv.sample ⟨⟨8⟩, ⟨5⟩, ⟨7⟩, ⟨9⟩, ⟨3, 4⟩, []⟩ (State.sampleAt 2 0) =
      (⟨⟨8⟩, ⟨5⟩, ⟨7⟩, ⟨9⟩, ⟨3, 4⟩, []⟩,
        .ok { State.sampleAt 2 0 with events := (State.sampleAt 2 0).events ++
          [.post (.barrier (State.sampleAt 2 0).worker.comm),
           .wait (.barrier (State.sampleAt 2 0).worker.comm)] }) ∧
    (Pick.run PickEnv.sample ⟨⟨8⟩, ⟨5⟩, ⟨7⟩, ⟨9⟩, ⟨3, 4⟩, []⟩ State.sample).1.pickResult =
      [3, 0, 0, 0, 4, 0, 0, 0, 1, 0, 0, 0, 0, 0, 0, 0] ∧
    ((State.sample.world.rank = 1) ↔ (State.sample.worker.rank = 0)) :=
  ⟨(Pick_run_computes_iff_world_rank_1 PickEnv.sample _ (State.sampleAt 2 0)).1 (by decide),
   ((Pick_run_computes_iff_world_rank_1 PickEnv.sample ⟨⟨8⟩, ⟨5⟩, ⟨7⟩, ⟨9⟩, ⟨3, 4⟩, []⟩
      State.sample).2.1 (by decide) (some 3) (some 2) (some 4) 0 ⟨.renderer, 1, [], none⟩
      rfl rfl rfl rfl (by decide)).1,
   (Pick_run_computes_iff_world_rank_1 PickEnv.sample ⟨⟨8⟩, ⟨5⟩, ⟨7⟩, ⟨9⟩, ⟨3, 4⟩, []⟩
      State.sample).2.2 (by decide)⟩

theorem find_matching_after_deliver (inbox : List Message) (msg : Message)
    (p : Message → Bool) (hfree : ∀ m ∈ inbox, p m = false) (hmsg : p msg = true) :
    (inbox ++ [msg]).find? p = some msg ∧ (inbox ++ [msg]).erase msg = inbox := by
  have hnone : inbox.find? p = none := by
    rw [List.find?_eq_none]
    intro m hm
    simp [hfree m hm]
  have hnot : msg ∉ inbox := by
    intro hin
    have := hfree msg hin
    rw [hmsg] at this
    cases this
  constructor
  · rw [List.find?_append, hnone]
    simp [List.find?, hmsg]
  · rw [List.erase_append_right _ hnot]
    simp

theorem waitRecv_none_of_no_match (count : Nat) (datatype : MPI_Datatype) (source tag : Int)
    (comm : MPI_Comm) (s : State)
    (hfree : ∀ m ∈ s.inbox, m.matchesRecv source tag comm (s.rankIn comm) = false) :
    mpicommon.waitRecv count datatype source tag comm s = none := by
  have hnone : s.inbox.find? (fun m => m.matchesRecv source tag comm (s.rankIn comm)) =
      none := by
    rw [List.find?_eq_none]
    intro m hm
    simp [hfree m hm]
  simp [mpicommon.waitRecv, hnone]

theorem waitRecv_deliver (count : Nat) (datatype : MPI_Datatype) (source tag : Int)
    (comm : MPI_Comm) (s : State) (msg : Message)
    (hfree : ∀ m ∈ s.inbox, m.matchesRecv source tag comm (s.rankIn comm) = false)
    (hmsg : msg.matchesRecv source tag comm (s.rankIn comm) = true)
    (hty : msg.datatype = datatype) (hcount : msg.count ≤ count) :
    mpicommon.waitRecv count datatype source tag comm (s.deliver msg) =
      some (.ok msg.payload,
        { s with events := s.events ++ [.wait (.recv count datatype source tag comm)] }) := by
  obtain ⟨hfind0, herase0⟩ := find_matching_after_deliver s.inbox msg
    (fun m => m.matchesRecv source tag comm (s.rankIn comm)) hfree hmsg
  have hfind : (s.deliver msg).inbox.find?
      (fun m => m.matchesRecv source tag comm ((s.deliver msg).rankIn comm)) = some msg :=
    hfind0
  have herase : (s.deliver msg).inbox.erase msg = s.inbox := herase0
  unfold mpicommon.waitRecv
  rw [hfind]
  simp only [herase, hty, hcount, and_self, if_true]
  rfl

theorem Pick_runOnMaster_of_wait (E : PickEnv) (selfM : Pick) (s s2 : State)
    (bytes : List byte_t)
    (h : mpicommon.waitRecv E.sizeof_pickResult .MPI_BYTE 1 E.typeIdOf_Pick s.world.comm
      (mpicommon.post (.recv E.sizeof_pickResult .MPI_BYTE 1 E.typeIdOf_Pick s.world.comm) s) =
        some (.ok bytes, s2)) :
    Pick.runOnMaster E selfM s = some ({ selfM with pickResult := bytes }, .ok s2) := by
  simp [Pick.runOnMaster, mpicommon.recv, h]

/-- C12: the transfer of a pick matches end to end. The designated worker
(full-cluster rank 1, lookups succeeding, renderer live) posts a send on the
full-cluster communicator to rank 0 with the type tag of `Pick`, element type
`MPI_BYTE` and the size of the pick result, carrying the value it computed
with `renderer->pick(fb, camera, world, screenPos)`; the master (rank 0 of
the same communicator) posts a receive on that communicator from rank 1, the
sender's rank, with the same tag, element type and count. The message is what
that receive takes; while it has not arrived the receive does not return, and
once it has arrived `runOnMaster` returns normally with `pickResult` equal to
the value the worker computed. -/
theorem Pick_transfer_end_to_end (E : PickEnv) (selfW selfM : Pick) (sw sm : State)
    (fb camera world : Option Ptr) (pr : Ptr) (or_ : ManagedObject)
    (hrank : sw.world.rank = 1)
    (hf : selfW.fbHandle.lookup sw = .ok fb)
    (hr : selfW.rendererHandle.lookup sw = .ok (some pr))
    (hc : selfW.cameraHandle.lookup sw = .ok camera)
    (hw : selfW.worldHandle.lookup sw = .ok world)
    (ho : sw.object pr = some or_)
    (hcomm : sm.world.comm = sw.world.comm) (hmaster : sm.world.rank = 0)
    (hfree : ∀ m ∈ sm.inbox, m.matchesRecv 1 E.typeIdOf_Pick sm.world.comm 0 = false) :
    (Pick.run E selfW sw).1.pickResult =
      E.pick sw (some pr) fb camera world selfW.screenPos ∧
    Event.post (.send 
      { comm := sw.world.comm, source := 1, dest := 0, tag := E.typeIdOf_Pick
        datatype := .MPI_BYTE, count := E.sizeof_pickResult
        payload := E.pick sw (some pr) fb camera world selfW.screenPos }) ∈ (Pick.run E selfW sw).2.state.events ∧
    Message.matchesRecv 
      { comm := sw.world.comm, source := 1, dest := 0, tag := E.typeIdOf_Pick
        datatype := .MPI_BYTE, count := E.sizeof_pickResult
        payload := E.pick sw (some pr) fb camera world selfW.screenPos } 1 E.typeIdOf_Pick sm.world.comm sm.world.rank = true ∧
    Pick.runOnMaster E selfM sm = none ∧
    ∃ om : State,
      Pick.runOnMaster E selfM (sm.deliver 
      { comm := sw.world.comm, source := 1, dest := 0, tag := E.typeIdOf_Pick
        datatype := .MPI_BYTE, count := E.sizeof_pickResult
        payload := E.pick sw (some pr) fb camera world selfW.screenPos }) =
        some ({ selfM with
                pickResult := E.pick sw (some pr) fb camera world selfW.screenPos },
              .ok om) ∧
      om.events = sm.events ++
        [.post (.recv E.sizeof_pickResult .MPI_BYTE 1 E.typeIdOf_Pick sw.world.comm),
         .wait (.recv E.sizeof_pickResult .MPI_BYTE 1 E.typeIdOf_Pick sw.world.comm)] ∧
      om.inbox = sm.inbox := by
  have hmatch : Message.matchesRecv 
      { comm := sw.world.comm, source := 1, dest := 0, tag := E.typeIdOf_Pick
        datatype := .MPI_BYTE, count := E.sizeof_pickResult
        payload := E.pick sw (some pr) fb camera world selfW.screenPos } 1 E.typeIdOf_Pick sm.world.comm sm.world.rank =
      true := by
    simp [Message.matchesRecv, hcomm, hmaster]
  have hrk : sm.rankIn sm.world.comm = 0 := by rw [rankIn_world, hmaster]
  refine ⟨?_, ?_, hmatch, ?_, ?_⟩
  · rw [Pick_run_designated E selfW sw fb camera world pr or_ hrank hf hr hc hw ho]
  · rw [Pick_run_designated E selfW sw fb camera world pr or_ hrank hf hr hc hw ho]
    simp [Outcome.ok]
  · have hw0 := waitRecv_none_of_no_match E.sizeof_pickResult .MPI_BYTE 1 E.typeIdOf_Pick
      sm.world.comm (mpicommon.post (.recv E.sizeof_pickResult .MPI_BYTE 1 E.typeIdOf_Pick
        sm.world.comm) sm) (by
          intro m hm
          have : (mpicommon.post (.recv E.sizeof_pickResult .MPI_BYTE 1 E.typeIdOf_Pick
              sm.world.comm) sm).rankIn sm.world.comm = 0 := hrk
          rw [this]
          exact hfree m hm)
    simp only [Pick.runOnMaster, mpicommon.recv]
    rw [hw0]
  · have hfree2 : ∀ m ∈ (mpicommon.post (.recv E.sizeof_pickResult .MPI_BYTE 1
        E.typeIdOf_Pick sm.world.comm) sm).inbox,
        m.matchesRecv 1 E.typeIdOf_Pick sm.world.comm
          ((mpicommon.post (.recv E.sizeof_pickResult .MPI_BYTE 1 E.typeIdOf_Pick
            sm.world.comm) sm).rankIn sm.world.comm) = false := by
      intro m hm
      have : (mpicommon.post (.recv E.sizeof_pickResult .MPI_BYTE 1 E.typeIdOf_Pick
          sm.world.comm) sm).rankIn sm.world.comm = 0 := hrk
      rw [this]
      exact hfree m hm
    have hmsg2 : Message.matchesRecv 
      { comm := sw.world.comm, source := 1, dest := 0, tag := E.typeIdOf_Pick
        datatype := .MPI_BYTE, count := E.sizeof_pickResult
        payload := E.pick sw (some pr) fb camera world selfW.screenPos } 1 E.typeIdOf_Pick sm.world.comm
        ((mpicommon.post (.recv E.sizeof_pickResult .MPI_BYTE 1 E.typeIdOf_Pick
          sm.world.comm) sm).rankIn sm.world.comm) = true := by
      have : (mpicommon.post (.recv E.sizeof_pickResult .MPI_BYTE 1 E.typeIdOf_Pick
          sm.world.comm) sm).rankIn sm.world.comm = sm.world.rank := rankIn_world sm
      rw [this]
      exact hmatch
    have hwait := waitRecv_deliver E.sizeof_pickResult .MPI_BYTE 1 E.typeIdOf_Pick
      sm.world.comm (mpicommon.post (.recv E.sizeof_pickResult .MPI_BYTE 1 E.typeIdOf_Pick
        sm.world.comm) sm) 
      { comm := sw.world.comm, source := 1, dest := 0, tag := E.typeIdOf_Pick
        datatype := .MPI_BYTE, count := E.sizeof_pickResult
        payload := E.pick sw (some pr) fb camera world selfW.screenPos } hfree2 hmsg2 rfl (Nat.le_refl _)
    refine ⟨{ sm with events := sm.events ++
        [.post (.recv E.sizeof_pickResult .MPI_BYTE 1 E.typeIdOf_Pick sw.world.comm),
         .wait (.recv E.sizeof_pickResult .MPI_BYTE 1 E.typeIdOf_Pick sw.world.comm)] },
      ?_, rfl, rfl⟩
    have hrun := Pick_runOnMaster_of_wait E selfM (sm.deliver 
      { comm := sw.world.comm, source := 1, dest := 0, tag := E.typeIdOf_Pick
        datatype := .MPI_BYTE, count := E.sizeof_pickResult
        payload := E.pick sw (some pr) fb camera world selfW.screenPos }) _ _ hwait
    rw [hrun]
    simp [mpicommon.post, Outcome.ok, hcomm]

/-- C12 on sample processes: the worker of full-cluster rank 1 computes the
16 bytes of the pick at screen position (3, 4); the master of rank 0, once the
message has arrived, holds the same 16 bytes in `pickResult`. -/
theorem Pick_transfer_end_to_end_witness :
    (Pick.run PickEnv.sample ⟨⟨8⟩, ⟨5⟩, ⟨7⟩, ⟨9⟩, ⟨3, 4⟩, []⟩ State.sample).1.pickResult =
      [3, 0, 0, 0, 4, 0, 0, 0, 1, 0, 0, 0, 0, 0, 0, 0] ∧
    Pick.runOnMaster PickEnv.sample ⟨⟨8⟩, ⟨5⟩, ⟨7⟩, ⟨9⟩, ⟨3, 4⟩, [7]⟩
      (State.sampleAt 0 (-1)) = none ∧
    ∃ om : State,
      Pick.runOnMaster PickEnv.sample ⟨⟨8⟩, ⟨5⟩, ⟨7⟩, ⟨9⟩, ⟨3, 4⟩, [7]⟩
        ((State.sampleAt 0 (-1)).deliver
          ⟨1, 1, 0, 42, .MPI_BYTE, 16, [3, 0, 0, 0, 4, 0, 0, 0, 1, 0, 0, 0, 0, 0, 0, 0]⟩) =
        some (⟨⟨8⟩, ⟨5⟩, ⟨7⟩, ⟨9⟩, ⟨3, 4⟩, [3, 0, 0, 0, 4, 0, 0, 0, 1, 0, 0, 0, 0, 0, 0, 0]⟩,
          .ok om) ∧
      om.events = [.post (.recv 16 .MPI_BYTE 1 42 1), .wait (.recv 16 .MPI_BYTE 1 42 1)] ∧
      om.inbox = [] := by
  have h := Pick_transfer_end_to_end PickEnv.sample ⟨⟨8⟩, ⟨5⟩, ⟨7⟩, ⟨9⟩, ⟨3, 4⟩, []⟩
    ⟨⟨8⟩, ⟨5⟩, ⟨7⟩, ⟨9⟩, ⟨3, 4⟩, [7]⟩ State.sample (State.sampleAt 0 (-1))
    (some 3) (some 2) (some 4) 0 ⟨.renderer, 1, [], none⟩ (by decide) rfl rfl rfl rfl
    (by decide) rfl (by decide) (by decide)
  exact ⟨h.1, h.2.2.2.1, h.2.2.2.2⟩

/-- C13 fails as stated: on the process of full-cluster rank 1, when the
renderer handle is not assigned (handle 40) the lookup fails, and when it is
the null handle the pick is called through a null pointer; in both cases
`Pick::run` leaves by the error and no barrier is entered. -/
theorem Pick_run_error_skips_barrier :
    (Pick.run PickEnv.sample ⟨⟨8⟩, ⟨40⟩, ⟨7⟩, ⟨9⟩, ⟨3, 4⟩, []⟩ State.sample).2.thrown =
      some .dangling_handle ∧
    (Pick.run PickEnv.sample ⟨⟨8⟩, ⟨40⟩, ⟨7⟩, ⟨9⟩, ⟨3, 4⟩, []⟩ State.sample).2.state.events =
      [] ∧
    (Pick.run PickEnv.sample ⟨⟨8⟩, nullHandle, ⟨7⟩, ⟨9⟩, ⟨3, 4⟩, []⟩ State.sample).2.thrown =
      some .invalid_pointer ∧
    (Pick.run PickEnv.sample ⟨⟨8⟩, nullHandle, ⟨7⟩, ⟨9⟩, ⟨3, 4⟩, []⟩
      State.sample).2.state.events = [] := by
  decide

/-- C13 as amended: every call of `Pick::run` that returns normally has
entered exactly one barrier, on the worker group, as its last action: the
events it adds are either the barrier alone or a send, the wait on that send,
and then the barrier. A process whose full-cluster rank is not 1 always
returns normally and does nothing but the barrier, whatever its handles are:
no lookup can fail, no pick is recorded, nothing is sent. The process of
full-cluster rank 1, when its four lookups succeed and the renderer is live,
returns normally after send, wait and barrier in this order. When the call
leaves by an error, which happens on the process of rank 1 only, the state is
as it was and no barrier was entered. -/
theorem Pick_run_barrier_last (E : PickEnv) (self : Pick) (s : State) :
    (s.world.rank ≠ 1 →
      Pick.run E self s =
        (self, .ok { s with events := s.events ++
          [.post (.barrier s.worker.comm), .wait (.barrier s.worker.comm)] })) ∧
    (s.world.rank = 1 →
      ∀ (fb camera world : Option Ptr) (pr : Ptr) (or_ : ManagedObject),
        self.fbHandle.lookup s = .ok fb →
        self.rendererHandle.lookup s = .ok (some pr) →
        self.cameraHandle.lookup s = .ok camera →
        self.worldHandle.lookup s = .ok world →
        s.object pr = some or_ →
        (Pick.run E self s).2.thrown = none ∧
        ∃ m, (Pick.run E self s).2.state.events = s.events ++
          [.post (.send m), .wait (.send m), .post (.barrier s.worker.comm),
           .wait (.barrier s.worker.comm)]) ∧
    ((Pick.run E self s).2.thrown = none →
      (Pick.run E self s).2.state.events = s.events ++
          [.post (.barrier s.worker.comm), .wait (.barrier s.worker.comm)] ∨
      ∃ m, (Pick.run E self s).2.state.events = s.events ++
          [.post (.send m), .wait (.send m), .post (.barrier s.worker.comm),
           .wait (.barrier s.worker.comm)]) ∧
    ((Pick.run E self s).2.thrown ≠ none →
      s.world.rank = 1 ∧ (Pick.run E self s).2.state = s) := by
  refine ⟨Pick_run_other_rank E self s, ?_, ?_, ?_⟩
  · intro h fb camera world pr or_ hf hr hc hw ho
    rw [Pick_run_designated E self s fb camera world pr or_ h hf hr hc hw ho]
    exact ⟨rfl, _, rfl⟩
  · intro hok
    rcases Pick_run_cases E self s with ⟨_, ⟨_, h1⟩ | ⟨_, m, h2⟩⟩ | ⟨hthrown, _⟩
    · exact Or.inl h1
    · exact Or.inr ⟨m, h2⟩
    · exact absurd hok hthrown
  · intro herr
    rcases Pick_run_cases E self s with ⟨hok, _⟩ | ⟨_, h1, h2⟩
    · exact absurd hok herr
    · exact ⟨h1, h2⟩

/-- C13 on sample processes: with full-cluster rank 2 the run adds the barrier
alone; with rank 1 and resolving handles it returns normally. -/
theorem Pick_run_barrier_last_witness :
    Pick.run PickEnv.sample ⟨⟨8⟩, ⟨40⟩, ⟨7⟩, ⟨9⟩, ⟨3, 4⟩, []⟩ (State.sampleAt 2 0) =
      (⟨⟨8⟩, ⟨40⟩, ⟨7⟩, ⟨9⟩, ⟨3, 4⟩, []⟩,
        .ok { State.sampleAt 2 0 with events := (State.sampleAt 2 0).events ++
          [.post (.barrier (State.sampleAt 2 0).worker.comm),
           .wait (.barrier (State.sampleAt 2 0).worker.comm)] }) ∧
    (Pick.run PickEnv.sample ⟨⟨8⟩, ⟨5⟩, ⟨7⟩, ⟨9⟩, ⟨3, 4⟩, []⟩ State.sample).2.thrown = none ∧
    (State.sample.world.rank = 1 ∧
      (Pick.run PickEnv.sample ⟨⟨8⟩, ⟨40⟩, ⟨7⟩, ⟨9⟩, ⟨3, 4⟩, []⟩ State.sample).2.state =
        State.sample) :=
  ⟨(Pick_run_barrier_last PickEnv.sample _ (State.sampleAt 2 0)).1 (by decide),
   ((Pick_run_barrier_last PickEnv.sample ⟨⟨8⟩, ⟨5⟩, ⟨7⟩, ⟨9⟩, ⟨3, 4⟩, []⟩
      State.sample).2.1 (by decide) (some 3) (some 2) (some 4) 0 ⟨.renderer, 1, [], none⟩
      rfl rfl rfl rfl (by decide)).1,
   (Pick_run_barrier_last PickEnv.sample ⟨⟨8⟩, ⟨40⟩, ⟨7⟩, ⟨9⟩, ⟨3, 4⟩, []⟩
      State.sample).2.2.2 (by decide)⟩

/-! ### NewGeometryInstance and NewVolumeInstance -/

theorem getElem?_entryAt (buf : List byte_t) (j n : Nat) :
    (entryAt buf j)[n]? = if n < 8 then buf[8 * j + n]? else none := by
  unfold entryAt
  rw [List.getElem?_take, List.getElem?_drop]

theorem getElem?_setPtrAt (buf : List byte_t) (i : Nat) (obj : Option Ptr) (n : Nat)
    (hin : 8 * i + 8 ≤ buf.length) :
    (setPtrAt buf i obj)[n]? =
      if 8 * i ≤ n ∧ n < 8 * i + 8 then (leBytes 8 (ptrBits obj))[n - 8 * i]? else buf[n]? := by
  unfold setPtrAt
  have hA : (buf.take (8 * i)).length = 8 * i := by
    rw [List.length_take]; omega
  have hW : (leBytes 8 (ptrBits obj)).length = 8 := leBytes_length 8 _
  rw [List.append_assoc, List.getElem?_append, hA]
  by_cases h1 : n < 8 * i
  · rw [if_pos h1, List.getElem?_take, if_pos h1, if_neg (by omega)]
  · rw [if_neg h1, List.getElem?_append, hW]
    by_cases h2 : n - 8 * i < 8
    · rw [if_pos h2, if_pos (by omega)]
    · rw [if_neg h2, if_neg (by omega), List.getElem?_drop]
      congr 1
      omega

theorem setPtrAt_length (buf : List byte_t) (i : Nat) (obj : Option Ptr)
    (hin : 8 * i + 8 ≤ buf.length) : (setPtrAt buf i obj).length = buf.length := by
  unfold setPtrAt
  simp only [List.length_append, List.length_take, List.length_drop, leBytes_length]
  omega

theorem entryAt_setPtrAt_same (buf : List byte_t) (i : Nat) (obj : Option Ptr)
    (hin : 8 * i + 8 ≤ buf.length) :
    entryAt (setPtrAt buf i obj) i = leBytes 8 (ptrBits obj) := by
  apply List.ext_getElem?
  intro n
  rw [getElem?_entryAt, getElem?_setPtrAt buf i obj _ hin]
  by_cases hn : n < 8
  · rw [if_pos hn, if_pos (by omega)]
    congr 1
    omega
  · rw [if_neg hn]
    symm
    apply List.getElem?_eq_none
    rw [leBytes_length]
    omega

theorem entryAt_setPtrAt_other (buf : List byte_t) (i j : Nat) (obj : Option Ptr)
    (hin : 8 * i + 8 ≤ buf.length) (hj : j ≠ i) :
    entryAt (setPtrAt buf i obj) j = entryAt buf j := by
  apply List.ext_getElem?
  intro n
  rw [getElem?_entryAt, getElem?_entryAt]
  by_cases hn : n < 8
  · rw [if_pos hn, if_pos hn, getElem?_setPtrAt buf i obj _ hin, if_neg (by omega)]
  · rw [if_neg hn, if_neg hn]

theorem handleAt_setPtrAt_other (buf : List byte_t) (i j : Nat) (obj : Option Ptr)
    (hin : 8 * i + 8 ≤ buf.length) (hj : j ≠ i) :
    handleAt (setPtrAt buf i obj) j = handleAt buf j := by
  unfold handleAt
  rw [setPtrAt_length buf i obj hin, entryAt_setPtrAt_other buf i j obj hin hj]

theorem translate_effect (s : State) :
    ∀ (k i : Nat) (buf : List byte_t),
      8 * (i + k) ≤ buf.length →
      (∀ j, i ≤ j → j < i + k → ∀ h, handleAt buf j = some h → h ≠ nullHandle →
        ∃ p, s.objectByHandle h.i64 = some p) →
      ∃ out, NewData.translate s k i buf = (out, none) ∧ out.length = buf.length ∧
        (∀ j, j < i → entryAt out j = entryAt buf j) ∧
        (∀ j, i ≤ j → j < i + k → ∀ h, handleAt buf j = some h →
          (h = nullHandle → entryAt out j = entryAt buf j) ∧
          (h ≠ nullHandle → ∀ obj, h.lookup s = .ok obj →
            entryAt out j = leBytes 8 (ptrBits obj))) := by
  intro k
  induction k with
  | zero =>
    intro i buf _ _
    refine ⟨buf, rfl, rfl, fun _ _ => rfl, ?_⟩
    intro j h1 h2
    omega
  | succ k ih =>
    intro i buf hlen hres
    have hin : 8 * i + 8 ≤ buf.length := by omega
    have hread : handleAt buf i = some ⟨ofBits 8 (leValue (entryAt buf i))⟩ := by
      simp [handleAt, hin]
    by_cases hnull : (⟨ofBits 8 (leValue (entryAt buf i))⟩ : ObjectHandle) = nullHandle
    · obtain ⟨out, hrun, hl, hbefore, hrange⟩ := ih (i + 1) buf (by omega)
        (fun j h1 h2 => hres j (by omega) (by omega))
      refine ⟨out, ?_, hl, fun j hj => hbefore j (by omega), ?_⟩
      · simp only [NewData.translate, hread, hnull, ne_eq, not_true_eq_false, if_false]
        exact hrun
      · intro j h1 h2 h hh
        by_cases hji : j = i
        · subst hji
          rw [hread] at hh
          cases hh
          exact ⟨fun _ => hbefore j (by omega), fun hne => absurd hnull hne⟩
        · exact hrange j (by omega) (by omega) h hh
    · obtain ⟨p, hp⟩ := hres i (Nat.le_refl _) (by omega) _ hread hnull
      have hlook : (⟨ofBits 8 (leValue (entryAt buf i))⟩ : ObjectHandle).lookup s =
          .ok (some p) := by
        simp [ObjectHandle.lookup, hnull, hp]
      have hl2 := setPtrAt_length buf i (some p) hin
      obtain ⟨out, hrun, hl, hbefore, hrange⟩ := ih (i + 1) (setPtrAt buf i (some p))
        (by rw [hl2]; omega)
        (fun j h1 h2 h hh => hres j (by omega) (by omega) h
          (by rw [← handleAt_setPtrAt_other buf i j (some p) hin (by omega)]; exact hh))
      refine ⟨out, ?_, by rw [hl, hl2], ?_, ?_⟩
      · simp only [NewData.translate, hread, hnull, ne_eq, not_false_eq_true, if_true,
          hlook]
        exact hrun
      · intro j hj
        rw [hbefore j (by omega), entryAt_setPtrAt_other buf i j (some p) hin (by omega)]
      · intro j h1 h2 h hh
        by_cases hji : j = i
        · subst hji
          rw [hread] at hh
          cases hh
          refine ⟨fun hz => absurd hz hnull, fun _ obj hobj => ?_⟩
          rw [hlook] at hobj
          cases hobj
          rw [hbefore j (by omega), entryAt_setPtrAt_same buf j (some p) hin]
        · have hh2 : handleAt (setPtrAt buf i (some p)) j = some h := by
            rw [handleAt_setPtrAt_other buf i j (some p) hin hji]; exact hh
          obtain ⟨r1, r2⟩ := hrange j (by omega) (by omega) h hh2
          rw [entryAt_setPtrAt_other buf i j (some p) hin hji] at r1
          exact ⟨r1, r2⟩

theorem NewData_new_fields (sizeOf : OSPDataType → Nat) (E : DataEnv) (handle : ObjectHandle)
    (nItems : Nat) (format : OSPDataType) (initMem : Nat → byte_t) (flags : Int)
    (hfit : sizeOf format * nItems < 2 ^ 64) :
    (NewData.new sizeOf E handle nItems format (some initMem) flags).dataView =
      (List.range (sizeOf format * nItems)).map initMem ∧
    (NewData.new sizeOf E handle nItems format (some initMem) flags).handle = handle ∧
    (NewData.new sizeOf E handle nItems format (some initMem) flags).nItems = nItems ∧
    (NewData.new sizeOf E handle nItems format (some initMem) flags).format = format := by
  by_cases h0 : nItems = 0
  · subst h0
    simp [NewData.new]
  · have hnum : (sizeOf format % 2 ^ 64 * (nItems % 2 ^ 64)) % 2 ^ 64 =
        sizeOf format * nItems := by
      rw [← Nat.mul_mod]
      exact Nat.mod_eq_of_lt hfit
    by_cases hs : Int.land flags E.OSP_DATA_SHARED_BUFFER ≠ 0
    · simp only [NewData.new, ne_eq, h0, not_false_eq_true, if_true, hnum]
      rw [if_pos hs]
      exact ⟨rfl, rfl, rfl, rfl⟩
    · simp only [NewData.new, ne_eq, h0, not_false_eq_true, if_true, hnum]
      rw [if_neg hs]
      exact ⟨rfl, rfl, rfl, rfl⟩

theorem NewData_run_object_format (E : DataEnv) (NDEBUG : Bool) (x : NewData) (s : State)
    (out : List byte_t)
    (hobj : E.isObjectFormat x.format = true)
    (hstr : NDEBUG = true ∨ x.format ≠ E.OSP_STRING)
    (hloop : NewData.translate s x.nItems 0 x.dataView = (out, none)) :
    NewData.run E NDEBUG x s =
      ({ x with dataView := out
                copiedData := if x.copiedData = x.dataView then out else x.copiedData },
        .ok (x.handle.assign s.heap.length (s.new (Data.new x.nItems x.format out)).2)) := by
  have hassert : (!NDEBUG && decide (x.format = E.OSP_STRING)) = false := by
    rcases hstr with h | h
    · simp [h]
    · simp [h]
  simp [NewData.run, hassert, hobj, hloop, State.new]

theorem NewData_run_other_format (E : DataEnv) (NDEBUG : Bool) (x : NewData) (s : State)
    (hobj : E.isObjectFormat x.format = false)
    (hstr : NDEBUG = true ∨ x.format ≠ E.OSP_STRING) :
    NewData.run E NDEBUG x s =
      (x, .ok (x.handle.assign s.heap.length
        (s.new (Data.new x.nItems x.format x.dataView)).2)) := by
  have hassert : (!NDEBUG && decide (x.format = E.OSP_STRING)) = false := by
    rcases hstr with h | h
    · simp [h]
    · simp [h]
  have hself : ({ x with dataView := x.dataView
                         copiedData := if x.copiedData = x.dataView then x.dataView
                                       else x.copiedData } : NewData) = x := by
    by_cases hc : x.copiedData = x.dataView
    · simp only [hc, if_true]
      cases x
      simp_all
    · simp only [hc, if_false]
  simp only [NewData.run, hassert, hobj]
  simp [hself, State.new]

theorem NewData_run_error_leaves_state (E : DataEnv) (NDEBUG : Bool) (x : NewData)
    (s : State) (h : (NewData.run E NDEBUG x s).2.thrown ≠ none) :
    (NewData.run E NDEBUG x s).2.state = s := by
  unfold NewData.run at h ⊢
  by_cases ha : (!NDEBUG && decide (x.format = E.OSP_STRING)) = true
  · simp [ha, Outcome.throw]
  · simp only [ha, Bool.false_eq_true, if_false] at h ⊢
    generalize (if E.isObjectFormat x.format = true then
      NewData.translate s x.nItems 0 x.dataView else (x.dataView, none)) = r at h ⊢
    obtain ⟨out, e⟩ := r
    cases e with
    | none => simp [Outcome.ok] at h
    | some e => simp [Outcome.throw]

/-- C15 fails as stated: in a build with assertions, `NewData::run` on the
format `OSP_STRING` stops at the assertion and assigns no Data object; and on
an object format, when an entry is a handle that is not null and not assigned
(handle 40 in the second of two entries), the lookup fails: the call leaves by
that error after the first entry has been translated, and no Data object is
assigned to the command's handle. -/
theorem NewData_run_fails_without_data :
    (NewData.run DataEnv.sample false
      (NewData.new (fun _ => 1) DataEnv.sample ⟨12⟩ 4 1500 (some fun _ => 65) 0)
      State.sample).2.thrown = some .assertion_failed ∧
    (NewData.run DataEnv.sample false
      (NewData.new (fun _ => 1) DataEnv.sample ⟨12⟩ 4 1500 (some fun _ => 65) 0)
      State.sample).2.state.objectByHandle 12 = none ∧
    (NewData.run DataEnv.sample false
      (NewData.new (fun _ => 8) DataEnv.sample ⟨12⟩ 2 1000
        (some fun i => if i = 0 then 5 else if i = 8 then 40 else 0) 0)
      State.sample).2.thrown = some .dangling_handle ∧
    (NewData.run DataEnv.sample false
      (NewData.new (fun _ => 8) DataEnv.sample ⟨12⟩ 2 1000
        (some fun i => if i = 0 then 5 else if i = 8 then 40 else 0) 0)
      State.sample).2.state.objectByHandle 12 = none ∧
    (NewData.run DataEnv.sample false
      (NewData.new (fun _ => 8) DataEnv.sample ⟨12⟩ 2 1000
        (some fun i => if i = 0 then 5 else if i = 8 then 40 else 0) 0)
      State.sample).1.dataView = [1, 0, 0, 0, 0, 0, 0, 0, 40, 0, 0, 0, 0, 0, 0, 0] := by
  decide

/-- C15 as amended: `NewData::run` translates handles element-wise. (1) For a
NewData `x` built by the constructor from non-null initial memory holding
`nItems` items of an object format (`sizeOf(format) * nItems` bytes, below
2^64, with `sizeOf(format)` at least the 8 bytes of a handle), in a build
without assertions or with a format other than `OSP_STRING`, and when every
entry that is not the null handle is an assigned handle: the buffer has
`sizeOf(format) * nItems` bytes, every index below `nItems` lies inside it,
the call returns normally, the buffer keeps its length, every null-handle
entry is as before, every other entry holds the pointer its lookup gave, and a
Data object of `nItems` items over the translated bytes is assigned to the
command's handle. (2) For every other format, in a build without assertions
or with a format other than `OSP_STRING`, the bytes are passed on unchanged
to the Data object assigned to the handle. (3) In a build with assertions the
format `OSP_STRING` stops the call at the assertion. (4) Whenever the call
leaves by an error the process state is as it was: no Data object is
assigned. -/
theorem NewData_run_translates_handles (sizeOf : OSPDataType → Nat) (E : DataEnv)
    (NDEBUG : Bool) :
    (∀ (handle : ObjectHandle) (nItems : Nat) (format : OSPDataType) (initMem : Nat → byte_t)
        (flags : Int) (s : State) (x : NewData),
      x = NewData.new sizeOf E handle nItems format (some initMem) flags →
      E.isObjectFormat format = true →
      (NDEBUG = true ∨ format ≠ E.OSP_STRING) →
      8 ≤ sizeOf format →
      sizeOf format * nItems < 2 ^ 64 →
      (∀ i, i < nItems → ∀ h, handleAt x.dataView i = some h → h ≠ nullHandle →
        ∃ p, s.objectByHandle h.i64 = some p) →
      x.dataView.length = sizeOf format * nItems ∧
      (∀ i, i < nItems → 8 * i + 8 ≤ x.dataView.length) ∧
      ∃ out,
        NewData.run E NDEBUG x s =
          ({ x with dataView := out
                    copiedData := if x.copiedData = x.dataView then out else x.copiedData },
            .ok (handle.assign s.heap.length (s.new (Data.new nItems format out)).2)) ∧
        out.length = x.dataView.length ∧
        (∀ i, i < nItems → ∀ h, handleAt x.dataView i = some h →
          (h = nullHandle → entryAt out i = entryAt x.dataView i) ∧
          (h ≠ nullHandle → ∀ obj, h.lookup s = .ok obj →
            entryAt out i = leBytes 8 (ptrBits obj))) ∧
        (NewData.run E NDEBUG x s).2.state.objectByHandle handle.i64 = some s.heap.length ∧
        (NewData.run E NDEBUG x s).2.state.object s.heap.length =
          some (Data.new nItems format out)) ∧
    (∀ (x : NewData) (s : State),
      E.isObjectFormat x.format = false →
      (NDEBUG = true ∨ x.format ≠ E.OSP_STRING) →
      NewData.run E NDEBUG x s =
        (x, .ok (x.handle.assign s.heap.length
          (s.new (Data.new x.nItems x.format x.dataView)).2)) ∧
      (NewData.run E NDEBUG x s).2.state.objectByHandle x.handle.i64 = some s.heap.length ∧
      (NewData.run E NDEBUG x s).2.state.object s.heap.length =
        some (Data.new x.nItems x.format x.dataView)) ∧
    (∀ (x : NewData) (s : State), NDEBUG = false → x.format = E.OSP_STRING →
      NewData.run E NDEBUG x s = (x, .throw .assertion_failed s)) ∧
    (∀ (x : NewData) (s : State), (NewData.run E NDEBUG x s).2.thrown ≠ none →
      (NewData.run E NDEBUG x s).2.state = s) := by
  refine ⟨?_, ?_, ?_, fun x s h => NewData_run_error_leaves_state E NDEBUG x s h⟩
  · intro handle nItems format initMem flags s x hx hobj hstr hsize hfit hres
    obtain ⟨hview, hh, hn, hfmt⟩ :=
      NewData_new_fields sizeOf E handle nItems format initMem flags hfit
    rw [← hx] at hview hh hn hfmt
    have hlen : x.dataView.length = sizeOf format * nItems := by
      rw [hview]; simp
    have hle : 8 * nItems ≤ x.dataView.length := by
      rw [hlen]; exact Nat.mul_le_mul_right nItems hsize
    obtain ⟨out, hloop, hol, _, hrange⟩ := translate_effect s nItems 0 x.dataView
      (by rw [Nat.zero_add]; exact hle)
      (fun j _ h2 => hres j (by rw [Nat.zero_add] at h2; exact h2))
    have hrun := NewData_run_object_format E NDEBUG x s out (by rw [hfmt]; exact hobj)
      (by rw [hfmt]; exact hstr) (by rw [hn]; exact hloop)
    have e1 : x.handle.assign s.heap.length (s.new (Data.new x.nItems x.format out)).2 =
        handle.assign s.heap.length (s.new (Data.new nItems format out)).2 := by
      rw [hh, hn, hfmt]
    rw [e1] at hrun
    refine ⟨hlen, ?_, out, hrun, hol, ?_, ?_, ?_⟩
    · intro i hi
      omega
    · intro i hi h hhd
      exact hrange i (Nat.zero_le _) (by rw [Nat.zero_add]; exact hi) h hhd
    · rw [hrun]
      simp [Outcome.ok, ObjectHandle.assign]
    · rw [hrun]
      simp only [Outcome.ok, object_assign]
      exact object_new_same s _
  · intro x s hobj hstr
    have hrun := NewData_run_other_format E NDEBUG x s hobj hstr
    refine ⟨hrun, ?_, ?_⟩
    · rw [hrun]
      simp [Outcome.ok, ObjectHandle.assign]
    · rw [hrun]
      simp only [Outcome.ok, object_assign]
      exact object_new_same s _
  · intro x s hnd hfmt
    simp [NewData.run, hnd, hfmt]

/-- C15 on the sample process: three items of the format `OSP_OBJECT` (1000),
the handles 5, null and 9, become the pointers to the objects at the addresses
0 and 4 around the untouched null entry, and a Data object of three items is
assigned to handle 12 at address 5; four bytes of another format (2000) are
passed on unchanged. -/
theorem NewData_run_translates_handles_witness :
    (NewData.run DataEnv.sample false
      (NewData.new (fun _ => 8) DataEnv.sample ⟨12⟩ 3 1000
        (some fun i => if i = 0 then 5 else if i = 16 then 9 else 0) 0)
      State.sample).2.state.objectByHandle 12 = some 5 ∧
    NewData.run DataEnv.sample false ⟨⟨12⟩, 4, 2000, 0, [1, 2, 3, 4], [1, 2, 3, 4]⟩
        State.sample =
      (⟨⟨12⟩, 4, 2000, 0, [1, 2, 3, 4], [1, 2, 3, 4]⟩,
        .ok ((⟨12⟩ : ObjectHandle).assign State.sample.heap.length
          (State.sample.new (Data.new 4 2000 [1, 2, 3, 4])).2)) := by
  obtain ⟨_, _, out, _, _, _, hassigned, _⟩ :=
    (NewData_run_translates_handles (fun _ => 8) DataEnv.sample false).1 ⟨12⟩ 3 1000
      (fun i => if i = 0 then 5 else if i = 16 then 9 else 0) 0 State.sample _ rfl
      (by decide) (Or.inr (by decide)) (by decide) (by decide) (by
        intro i hi h hh hne
        have h3 : i = 0 ∨ i = 1 ∨ i = 2 := by omega
        rcases h3 with rfl | rfl | rfl
        · have : h = ⟨5⟩ := by
            have e : handleAt (NewData.new (fun _ => 8) DataEnv.sample ⟨12⟩ 3 1000
              (some fun i => if i = 0 then 5 else if i = 16 then 9 else 0) 0).dataView 0 =
                some ⟨5⟩ := by decide
            rw [e] at hh
            exact (Option.some.inj hh).symm
          subst this
          exact ⟨0, rfl⟩
        · have : h = nullHandle := by
            have e : handleAt (NewData.new (fun _ => 8) DataEnv.sample ⟨12⟩ 3 1000
              (some fun i => if i = 0 then 5 else if i = 16 then 9 else 0) 0).dataView 1 =
                some nullHandle := by decide
            rw [e] at hh
            exact (Option.some.inj hh).symm
          exact absurd this hne
        · have : h = ⟨9⟩ := by
            have e : handleAt (NewData.new (fun _ => 8) DataEnv.sample ⟨12⟩ 3 1000
              (some fun i => if i = 0 then 5 else if i = 16 then 9 else 0) 0).dataView 2 =
                some ⟨9⟩ := by decide
            rw [e] at hh
            exact (Option.some.inj hh).symm
          subst this
          exact ⟨4, rfl⟩)
  exact ⟨hassigned,
    ((NewData_run_translates_handles (fun _ => 8) DataEnv.sample false).2.1
      ⟨⟨12⟩, 4, 2000, 0, [1, 2, 3, 4], [1, 2, 3, 4]⟩ State.sample (by decide)
      (Or.inr (by decide))).1⟩

end work

end ospray
